import Mathlib

/-!
Verification of the deck draw-and-replenish mechanism and the card catalogs
of the systems-thinking tarot repository.

The repository contains two near-identical modules, `riskTarot.py` (class
`TonysTarot`) and `systemsTarot.py` (class `SystemsTarot`).  Each defines a
78-card catalog (22 Major Arcana plus 4 suits of 14 Minor cards) and the same
draw algorithm:

    def draw(self, n: int = 1) -> List[Card]:
        if n <= 0:
            return []
        if n > len(self.deck):
            self.reset_and_shuffle()
        drawn = self.deck[:n]
        self.deck = self.deck[n:]
        if len(self.deck) < 10:
            self.reset_and_shuffle()
        return drawn

The catalogs are embedded verbatim below.  The draw machine is embedded once,
generically in the card type, since the two classes share the algorithm
line for line.  `random.shuffle` is modelled by an explicit permutation
oracle `σ`; theorems assume only that `σ` permutes its input.

A companion script `generate_prompts.py` derives one image-generation prompt
file per card of `systemsTarot.py`; it is embedded as a pure function from
the catalog to the list of (file name, file content) pairs it writes.
-/

set_option maxRecDepth 8000

namespace riskTarot

/-- Card record of `riskTarot.py` (fields in source order): name, card_type,
number (`None` for Major Arcana, 1-14 for Minor), pattern, questions,
failure_modes, emergence_patterns, batcave_context. -/
structure Card where
  name : String
  card_type : String
  number : Option Nat
  pattern : String
  questions : List String
  failure_modes : List String
  emergence_patterns : List String
  batcave_context : String
deriving DecidableEq, Repr

def MAJOR_ARCANA : List Card := [
  ⟨"The Cascade",
   "Major",
   none,
   "Small triggers, massive consequences. Single points of failure propagating through interconnected systems.",
   ["What small change could trigger disproportionate effects?",
    "Where are my single points of failure?",
    "What cascades am I already inside?"],
   ["Ignoring weak signals until cascade begins",
    "Optimizing local efficiency at cost of systemic resilience",
    "Assuming linear causality in nonlinear systems"],
   ["Avalanche dynamics in social/technical systems",
    "Bank runs and panic cascades",
    "Network effects accelerating collapse"],
   "Critical infrastructure attacks, financial contagion, supply chain fragility"⟩,
  ⟨"The Mycelium",
   "Major",
   none,
   "Distributed intelligence without central control. Information sharing through underground networks.",
   ["How do I influence without authority?",
    "What networks am I part of that I can't see?",
    "Where is intelligence emerging from local interactions?"],
   ["Seeking control instead of influence",
    "Ignoring informal networks",
    "Underestimating distributed coordination"],
   ["Leaderless movements achieving coordination",
    "Knowledge sharing without hierarchy",
    "Resilient systems that route around damage"],
   "Information ecosystem health, decentralized coordination, fungal network intelligence"⟩,
  ⟨"The Threshold",
   "Major",
   none,
   "Tipping points and irreversible state changes. The moment before everything becomes different.",
   ["What threshold am I approaching?",
    "Is this decision reversible?",
    "What happens after I cross this line?"],
   ["Crossing thresholds unknowingly",
    "Assuming all changes are reversible",
    "Ignoring early warning signs"],
   ["Phase transitions in complex systems",
    "Sudden flips in stable equilibria",
    "Points of no return"],
   "Climate tipping points (AMOC, Arctic ice), social cohesion breakdown, nuclear proliferation"⟩,
  ⟨"The Emergence",
   "Major",
   none,
   "Order arising from chaos. Patterns that couldn't be predicted from components alone.",
   ["What's trying to emerge that I can't control?",
    "Am I creating conditions for emergence or forcing outcomes?",
    "What patterns are appearing that weren't designed?"],
   ["Over-controlling instead of enabling",
    "Mistaking emergence for randomness",
    "Crushing novelty by forcing plans"],
   ["Self-organizing systems finding solutions",
    "Unexpected capabilities from simple rules",
    "Bottom-up innovation"],
   "Complex domain operation, living systems evolution, market dynamics"⟩,
  ⟨"The Collapse",
   "Major",
   none,
   "System failure and dissolution. The end of what was, making space for what's next.",
   ["What needs to collapse for something better to emerge?",
    "Am I prolonging a dying system?",
    "What comes after this failure?"],
   ["Propping up systems past their useful life",
    "Fearing collapse instead of preparing for it",
    "Missing opportunities in destruction"],
   ["Creative destruction enabling innovation",
    "Collapse creating space for new growth",
    "Phoenix patterns"],
   "Civilizational collapse indicators, organizational death, managed decline"⟩,
  ⟨"The Resilience",
   "Major",
   none,
   "Anti-fragility. Systems that grow stronger under stress, not just survive it.",
   ["How do I benefit from volatility?",
    "What stressors make me stronger?",
    "Am I optimizing for efficiency or resilience?"],
   ["Over-optimization reducing adaptability",
    "Seeking stability instead of anti-fragility",
    "Avoiding all stress and losing capacity"],
   ["Hormesis and beneficial stress",
    "Redundancy enabling survival",
    "Optionality under uncertainty"],
   "Infrastructure resilience, pandemic preparedness, financial stress testing"⟩,
  ⟨"The Attention",
   "Major",
   none,
   "Resource allocation through selective focus. Intelligence as learned prioritization.",
   ["Where am I directing my attention?",
    "What am I missing by focusing here?",
    "How do I decide what matters?"],
   ["Attention scattered across too many domains",
    "Focusing on urgent over important",
    "Missing signals outside attention window"],
   ["Transformer architecture and learned attention",
    "Collective attention shaping reality",
    "Awareness as competitive advantage"],
   "Hypervigilance patterns, threat detection optimization, information filtering"⟩,
  ⟨"The Feedback",
   "Major",
   none,
   "Control loops, positive and negative. Systems regulating or amplifying themselves.",
   ["What feedback loops am I inside?",
    "Am I creating stabilizing or destabilizing feedback?",
    "Where are my blind spots in the loop?"],
   ["Breaking feedback loops for short-term gain",
    "Ignoring delayed feedback",
    "Positive feedback spiraling out of control"],
   ["Homeostasis in living systems",
    "Runaway effects in markets",
    "Self-correcting organizations"],
   "Climate feedback loops, financial feedback mechanisms, social reinforcement"⟩,
  ⟨"The Boundary",
   "Major",
   none,
   "Liminal space between domains. Operating at edges where rules change.",
   ["What boundary am I operating on?",
    "What rules apply here vs. there?",
    "What's possible at edges that isn't possible in centers?"],
   ["Applying wrong-domain rules",
    "Ignoring context shifts",
    "Staying in comfortable territory"],
   ["Innovation at domain intersections",
    "Phase transitions and interfaces",
    "Cross-pollination between fields"],
   "Complex/Chaotic boundary, geopolitical borders, epistemic commons edges"⟩,
  ⟨"The Signal",
   "Major",
   none,
   "Information transmission through noise. Distinguishing meaning from chaos.",
   ["What signal am I missing in the noise?",
    "What noise am I mistaking for signal?",
    "How do I amplify weak signals?"],
   ["Signal loss through excessive filtering",
    "Noise amplification through poor models",
    "Missing weak signals until too late"],
   ["Early warning systems",
    "Pattern recognition in chaos",
    "Information theory applied to decisions"],
   "Threat intelligence scanning, weak signal detection, information warfare"⟩,
  ⟨"The Compression",
   "Major",
   none,
   "Reducing complexity to fit context windows. Translation and information loss.",
   ["What am I losing by compressing?",
    "Who am I compressing myself for?",
    "What's the minimum viable complexity?"],
   ["Over-compression losing essential information",
    "Operating at compressed capacity habitually",
    "Forgetting full complexity exists"],
   ["Abstraction enabling reasoning",
    "Lossy compression for efficiency",
    "Models simplifying reality"],
   "Operating at 30% capacity, translating for others, context window constraints"⟩,
  ⟨"The Archipelago",
   "Major",
   none,
   "Living ecosystems in parallel. Islands developing independently with rare cross-pollination.",
   ["What islands am I stewarding?",
    "Which island wants attention now?",
    "Where might cross-pollination create something new?"],
   ["Forcing islands to merge prematurely",
    "Abandoning islands before they mature",
    "Spreading energy too thin across too many"],
   ["Parallel development in isolated systems",
    "Punctuated equilibrium",
    "Seismic events from rare connections"],
   "Multiple simultaneous projects, generative systems, portfolio thinking"⟩,
  ⟨"The Continuity",
   "Major",
   none,
   "Post-catastrophe survival. Systems designed to persist through existential threats.",
   ["What must survive no matter what?",
    "How do I ensure continuity through collapse?",
    "What's essential vs. merely important?"],
   ["No succession planning",
    "Single points of failure in critical systems",
    "Assuming stability will continue"],
   ["Backup systems and redundancy",
    "Knowledge preservation",
    "Succession and inheritance"],
   "Post-nuclear command systems, civilization continuity, strategic reserves"⟩,
  ⟨"The Translation",
   "Major",
   none,
   "Converting between contexts. Bridging incompatible worldviews.",
   ["What am I translating and why?",
    "What's lost in translation?",
    "Who benefits from my translation work?"],
   ["Translating when you should be speaking natively",
    "Translation exhaustion",
    "Forgetting your native language"],
   ["Bridges between communities",
    "Polyglot advantages",
    "Context switching as skill"],
   "Operating across 50+ domains, explaining to others, compression necessity"⟩,
  ⟨"The Hypervigilance",
   "Major",
   none,
   "Constant threat scanning. Nervous system running in tactical mode.",
   ["What threat am I actually responding to?",
    "Is this vigilance serving me or controlling me?",
    "What would relaxing my guard actually cost?"],
   ["Scanning for threats that don't exist",
    "Burning out from constant activation",
    "Missing present moments while predicting futures"],
   ["Protective patterns outliving their usefulness",
    "Prediction addiction",
    "Chess-playing at breakfast table"],
   "Military dependent childhood, 50 years of threat modeling, pattern recognition as survival"⟩,
  ⟨"The Janke",
   "Major",
   none,
   "Radical reframe. Burning the chessboard and playing a different game entirely.",
   ["What assumption am I locked into?",
    "What would the opposite of my plan look like?",
    "What if I'm solving the wrong problem?"],
   ["Incremental changes when radical shift needed",
    "Playing the same game expecting different results",
    "Fear of losing progress already made"],
   ["Discontinuous jumps in thinking",
    "Paradigm shifts",
    "Maximum orthogonality revealing new space"],
   "Going back to NFL at 44, doing something completely outside trajectory"⟩,
  ⟨"The Synthesis",
   "Major",
   none,
   "Creating novel combinations from existing elements. The alchemical moment.",
   ["What do I know that nobody else combines?",
    "Where do my domains intersect unexpectedly?",
    "What emerges when I connect A + B + C?"],
   ["Keeping domains isolated",
    "Assuming synthesis will happen automatically",
    "Missing obvious combinations"],
   ["Innovation from recombination",
    "Breakthrough insights",
    "New fields from old intersections"],
   "Neuron project, should've written 'Attention is All You Need', unique capability"⟩,
  ⟨"The Stewardship",
   "Major",
   none,
   "Tending systems you don't control. Creating conditions for emergence without forcing outcomes.",
   ["What am I trying to control that I should be stewarding?",
    "What conditions enable growth?",
    "When do I intervene vs. observe?"],
   ["Micromanaging instead of enabling",
    "Abandoning systems that need tending",
    "Forcing outcomes instead of creating conditions"],
   ["Gardening vs. engineering",
    "Facilitative leadership",
    "Systems thinking in practice"],
   "DE community building, teaching, ecosystem thinking"⟩,
  ⟨"The Compression Release",
   "Major",
   none,
   "Operating at full capacity without translation. Permission to stop fitting into context windows.",
   ["What would I do if I didn't have to compress?",
    "Who am I when I'm not translating?",
    "What's my actual scope?"],
   ["Permanent compression becoming identity",
    "Forgetting full capability",
    "Never testing actual limits"],
   ["Decompression revealing true capacity",
    "Finding peers who don't require translation",
    "Building context that fits you"],
   "28 years at Capital One, always translating, 'why are you at a bank?'"⟩,
  ⟨"The Unknown Unknown",
   "Major",
   none,
   "What you don't know you don't know. The space beyond the map.",
   ["What am I not even asking about?",
    "What would I need to learn to see this blind spot?",
    "Who might see what I'm missing?"],
   ["Assuming you know what's knowable",
    "Staying in explored territory",
    "Mistaking map for territory"],
   ["Discoveries from left field",
    "Paradigm shifts from outside",
    "Learning you've been asking wrong questions"],
   "Batcave project seeking unknown unknowns, context funhouse mirror problem"⟩,
  ⟨"The Legacy",
   "Major",
   none,
   "What you leave behind. Inheritance beyond the material.",
   ["What am I building that outlasts me?",
    "Who carries forward what I started?",
    "What's worth preserving?"],
   ["Building nothing lasting",
    "Obsessing over legacy instead of living",
    "Leaving burden instead of gift"],
   ["Knowledge transmission across generations",
    "Institutions outliving founders",
    "Cultural inheritance"],
   "Relative built treaties, dad built doomsday systems, what will you build?"⟩,
  ⟨"The Presence",
   "Major",
   none,
   "Being here now without prediction or planning. Stopping the chess game.",
   ["Where am I right now, actually?",
    "What am I missing by being three moves ahead?",
    "Can I be present without threat assessment?"],
   ["Always in the future, never now",
    "Mistaking prediction for living",
    "Relationship friction from absence"],
   ["Spontaneity and flow states",
    "Connection requiring presence",
    "Joy in the moment"],
   "Winding down hypervigilance, relational presence, stop playing chess at breakfast"⟩
]

def create_networks_suit : List Card := [
  ⟨"Ace of Networks",
   "Networks",
   some 1,
   "Pure potential of connectivity. The first link.",
   ["What connection am I about to make?",
    "What network wants to form?"],
   [],
   [],
   "Submarine cables, internet backbone, new infrastructure"⟩,
  ⟨"Two of Networks",
   "Networks",
   some 2,
   "Point-to-point communication. Direct connection.",
   ["Who do I need to talk to directly?",
    "What's getting lost in mediation?"],
   [],
   [],
   "Bilateral relationships, peer connections"⟩,
  ⟨"Three of Networks",
   "Networks",
   some 3,
   "Triangle formation. Stability through redundancy.",
   ["Where do I need backup paths?",
    "What's my second option?"],
   [],
   [],
   "Redundant systems, failover capacity"⟩,
  ⟨"Four of Networks",
   "Networks",
   some 4,
   "Hub-and-spoke. Centralized routing.",
   ["Am I the hub or the spoke?",
    "What's the single point of failure?"],
   [],
   [],
   "Centralized architecture, dependency risks"⟩,
  ⟨"Five of Networks",
   "Networks",
   some 5,
   "Network fragmentation. Loss of connectivity.",
   ["What connections are breaking?",
    "How do I heal the split?"],
   [],
   [],
   "Infrastructure attacks, network partition"⟩,
  ⟨"Six of Networks",
   "Networks",
   some 6,
   "Mesh topology. Distributed resilience.",
   ["How does information route around damage?",
    "What's my mesh density?"],
   [],
   [],
   "Decentralized systems, mycelial networks"⟩,
  ⟨"Seven of Networks",
   "Networks",
   some 7,
   "Network congestion. Too much traffic.",
   ["Where are my bottlenecks?",
    "What needs throttling?"],
   [],
   [],
   "Bandwidth constraints, flow optimization"⟩,
  ⟨"Eight of Networks",
   "Networks",
   some 8,
   "Network effects. Value from scale.",
   ["How does growth create value?",
    "What's my critical mass?"],
   [],
   [],
   "Platform effects, viral adoption"⟩,
  ⟨"Nine of Networks",
   "Networks",
   some 9,
   "Over-connected. Collapse from complexity.",
   ["Am I too connected?",
    "What connections should I sever?"],
   [],
   [],
   "Cascade vulnerability, tight coupling"⟩,
  ⟨"Ten of Networks",
   "Networks",
   some 10,
   "Network maturity. Established infrastructure.",
   ["Is this network done growing?",
    "What's next after maturity?"],
   [],
   [],
   "Legacy systems, infrastructure debt"⟩,
  ⟨"Page of Networks",
   "Networks",
   some 11,
   "Learning connectivity. Explorer of links.",
   ["What network am I just discovering?",
    "Where should I explore?"],
   [],
   [],
   "Network mapping, topology discovery"⟩,
  ⟨"Knight of Networks",
   "Networks",
   some 12,
   "Network warrior. Defender of infrastructure.",
   ["What infrastructure needs protecting?",
    "Where do I patrol?"],
   [],
   [],
   "Cybersecurity, infrastructure defense"⟩,
  ⟨"Queen of Networks",
   "Networks",
   some 13,
   "Network wisdom. Deep understanding of connectivity.",
   ["What does this network need?",
    "How do I nurture connections?"],
   [],
   [],
   "Infrastructure stewardship, network health"⟩,
  ⟨"King of Networks",
   "Networks",
   some 14,
   "Network sovereignty. Control of infrastructure.",
   ["Who controls this network?",
    "What's my infrastructure power?"],
   [],
   [],
   "Critical infrastructure ownership, network dominance"⟩
]

def create_events_suit : List Card := [
  ⟨"Ace of Events",
   "Events",
   some 1,
   "The first trigger. Initiating event.",
   ["What event starts the cascade?",
    "What's the first domino?"],
   [],
   [],
   "Black swan events, triggering moments"⟩,
  ⟨"Two of Events",
   "Events",
   some 2,
   "Cause and effect. Simple causality.",
   ["What caused this?",
    "What will this cause?"],
   [],
   [],
   "Linear causality, deterministic systems"⟩,
  ⟨"Three of Events",
   "Events",
   some 3,
   "Event branching. Multiple possible outcomes.",
   ["Which path does this event take?",
    "What futures are possible?"],
   [],
   [],
   "Decision trees, branching timelines"⟩,
  ⟨"Four of Events",
   "Events",
   some 4,
   "Event synchronization. Coordination in time.",
   ["What needs to happen simultaneously?",
    "How do I coordinate?"],
   [],
   [],
   "Distributed timing, consensus protocols"⟩,
  ⟨"Five of Events",
   "Events",
   some 5,
   "Event chaos. Loss of causal clarity.",
   ["What's the actual cause here?",
    "Am I confusing correlation and causation?"],
   [],
   [],
   "Complex causality, chaotic systems"⟩,
  ⟨"Six of Events",
   "Events",
   some 6,
   "Event stream. Continuous flow.",
   ["What's the pattern in the stream?",
    "How do I process this flow?"],
   [],
   [],
   "Event-driven architecture, streaming data"⟩,
  ⟨"Seven of Events",
   "Events",
   some 7,
   "Event cascade. Chain reactions.",
   ["What cascade am I triggering?",
    "Where does this chain end?"],
   [],
   [],
   "Cascade failures, domino effects, contagion"⟩,
  ⟨"Eight of Events",
   "Events",
   some 8,
   "Event replay. Learning from history.",
   ["What can I learn from past events?",
    "What patterns repeat?"],
   [],
   [],
   "Historical analysis, pattern recognition"⟩,
  ⟨"Nine of Events",
   "Events",
   some 9,
   "Event overload. Too much happening.",
   ["What events can I ignore?",
    "Where do I focus?"],
   [],
   [],
   "Information overload, priority management"⟩,
  ⟨"Ten of Events",
   "Events",
   some 10,
   "Event completion. Cycle ending.",
   ["What cycle is finishing?",
    "What comes after completion?"],
   [],
   [],
   "Project completion, cycle endings"⟩,
  ⟨"Page of Events",
   "Events",
   some 11,
   "Event watcher. Observer of patterns.",
   ["What events should I monitor?",
    "What patterns am I missing?"],
   [],
   [],
   "Monitoring systems, early warning"⟩,
  ⟨"Knight of Events",
   "Events",
   some 12,
   "Event responder. Quick reaction.",
   ["How fast must I respond?",
    "What's the urgency?"],
   [],
   [],
   "Incident response, crisis management"⟩,
  ⟨"Queen of Events",
   "Events",
   some 13,
   "Event wisdom. Understanding timing.",
   ["When is the right time?",
    "What's the rhythm here?"],
   [],
   [],
   "Timing strategy, rhythmic patterns"⟩,
  ⟨"King of Events",
   "Events",
   some 14,
   "Event mastery. Control of timing.",
   ["Do I control the timing?",
    "Who sets the tempo?"],
   [],
   [],
   "Strategic timing, tempo control"⟩
]

def create_agents_suit : List Card := [
  ⟨"Ace of Agents",
   "Agents",
   some 1,
   "Autonomous action. Independent agency.",
   ["What can I do alone?",
    "Where do I have agency?"],
   [],
   [],
   "Individual autonomy, self-direction"⟩,
  ⟨"Two of Agents",
   "Agents",
   some 2,
   "Partnership. Cooperative action.",
   ["Who's my partner here?",
    "How do we coordinate?"],
   [],
   [],
   "Collaboration, paired work"⟩,
  ⟨"Three of Agents",
   "Agents",
   some 3,
   "Small team. Coordinated intelligence.",
   ["Who's on my team?",
    "How do we work together?"],
   [],
   [],
   "Small group dynamics, team formation"⟩,
  ⟨"Four of Agents",
   "Agents",
   some 4,
   "Organized structure. Hierarchy forming.",
   ["What's the structure here?",
    "Who reports to whom?"],
   [],
   [],
   "Organizational hierarchy, chain of command"⟩,
  ⟨"Five of Agents",
   "Agents",
   some 5,
   "Agent conflict. Competing interests.",
   ["What's the conflict?",
    "Can interests align?"],
   [],
   [],
   "Competing priorities, game theory"⟩,
  ⟨"Six of Agents",
   "Agents",
   some 6,
   "Swarm intelligence. Emergent coordination.",
   ["How does coordination emerge?",
    "What rules create the swarm?"],
   [],
   [],
   "Collective behavior, emergent organization"⟩,
  ⟨"Seven of Agents",
   "Agents",
   some 7,
   "Agent diversity. Specialization.",
   ["What's each agent's role?",
    "How does diversity help?"],
   [],
   [],
   "Specialization, division of labor"⟩,
  ⟨"Eight of Agents",
   "Agents",
   some 8,
   "Multi-agent systems. Complex coordination.",
   ["How do many agents coordinate?",
    "What's the protocol?"],
   [],
   [],
   "Large-scale coordination, protocols"⟩,
  ⟨"Nine of Agents",
   "Agents",
   some 9,
   "Agent autonomy vs. control. Tension.",
   ["How much control do I need?",
    "When do I let go?"],
   [],
   [],
   "Micromanagement vs. delegation, trust"⟩,
  ⟨"Ten of Agents",
   "Agents",
   some 10,
   "Collective intelligence. Hive mind.",
   ["What does the collective know?",
    "How do we think together?"],
   [],
   [],
   "Collective decision-making, wisdom of crowds"⟩,
  ⟨"Page of Agents",
   "Agents",
   some 11,
   "Learning agent. Growing capability.",
   ["What am I learning?",
    "How do I improve?"],
   [],
   [],
   "Skill development, capability growth"⟩,
  ⟨"Knight of Agents",
   "Agents",
   some 12,
   "Action-oriented agent. Executor.",
   ["What needs doing now?",
    "How do I execute?"],
   [],
   [],
   "Execution focus, getting things done"⟩,
  ⟨"Queen of Agents",
   "Agents",
   some 13,
   "Nurturing intelligence. Teacher and mentor.",
   ["Who needs my guidance?",
    "How do I develop others?"],
   [],
   [],
   "Mentorship, teaching, development"⟩,
  ⟨"King of Agents",
   "Agents",
   some 14,
   "Strategic intelligence. Master coordinator.",
   ["What's the overall strategy?",
    "How do I orchestrate?"],
   [],
   [],
   "Strategic leadership, orchestration"⟩
]

def create_resources_suit : List Card := [
  ⟨"Ace of Resources",
   "Resources",
   some 1,
   "New resource. Fresh potential.",
   ["What new resource is available?",
    "How do I use it?"],
   [],
   [],
   "New funding, new capability, new energy"⟩,
  ⟨"Two of Resources",
   "Resources",
   some 2,
   "Resource balance. Equilibrium.",
   ["Am I balanced?",
    "What needs rebalancing?"],
   [],
   [],
   "Work-life balance, resource allocation"⟩,
  ⟨"Three of Resources",
   "Resources",
   some 3,
   "Resource collaboration. Pooling.",
   ["What resources can we share?",
    "How do we pool?"],
   [],
   [],
   "Shared resources, collaboration"⟩,
  ⟨"Four of Resources",
   "Resources",
   some 4,
   "Resource hoarding. Holding too tight.",
   ["What am I hoarding?",
    "What needs to flow?"],
   [],
   [],
   "Accumulation vs. flow, letting go"⟩,
  ⟨"Five of Resources",
   "Resources",
   some 5,
   "Resource scarcity. Not enough.",
   ["What's truly scarce?",
    "How do I work within constraints?"],
   [],
   [],
   "Scarcity mindset, constraint optimization"⟩,
  ⟨"Six of Resources",
   "Resources",
   some 6,
   "Resource flow. Circulation and exchange.",
   ["Where do resources flow?",
    "What blocks flow?"],
   [],
   [],
   "Cash flow, energy flow, circulation"⟩,
  ⟨"Seven of Resources",
   "Resources",
   some 7,
   "Resource investment. Long-term thinking.",
   ["What investment pays off later?",
    "What's the long game?"],
   [],
   [],
   "Long-term investment, deferred gratification"⟩,
  ⟨"Eight of Resources",
   "Resources",
   some 8,
   "Resource transformation. Alchemy.",
   ["How do I transform this resource?",
    "What's the conversion?"],
   [],
   [],
   "Value transformation, resource conversion"⟩,
  ⟨"Nine of Resources",
   "Resources",
   some 9,
   "Resource abundance. More than enough.",
   ["What abundance do I have?",
    "Am I seeing it?"],
   [],
   [],
   "Abundance mindset, gratitude"⟩,
  ⟨"Ten of Resources",
   "Resources",
   some 10,
   "Resource legacy. Inheritance.",
   ["What resources do I pass on?",
    "What's my inheritance?"],
   [],
   [],
   "Legacy planning, generational transfer"⟩,
  ⟨"Page of Resources",
   "Resources",
   some 11,
   "Resource learning. Understanding value.",
   ["What's truly valuable?",
    "How do I recognize worth?"],
   [],
   [],
   "Value assessment, learning worth"⟩,
  ⟨"Knight of Resources",
   "Resources",
   some 12,
   "Resource quest. Seeking what's needed.",
   ["What resource am I seeking?",
    "Where do I find it?"],
   [],
   [],
   "Resource acquisition, quest"⟩,
  ⟨"Queen of Resources",
   "Resources",
   some 13,
   "Resource wisdom. Knowing what's needed.",
   ["What do I truly need?",
    "What's sufficient?"],
   [],
   [],
   "Sufficiency, wise allocation"⟩,
  ⟨"King of Resources",
   "Resources",
   some 14,
   "Resource mastery. Strategic allocation.",
   ["How do I allocate optimally?",
    "What's my strategy?"],
   [],
   [],
   "Strategic resource allocation, mastery"⟩
]
/-- `TonysTarot.__init__`: full_deck = MAJOR_ARCANA + the four suits. -/
def full_deck : List Card :=
  MAJOR_ARCANA
    ++ create_networks_suit
    ++ create_events_suit
    ++ create_agents_suit
    ++ create_resources_suit

end riskTarot

namespace systemsTarot

/-- Card record of `systemsTarot.py` (fields in source order): name,
card_type, number (`None` for Major Arcana, 1-14 for Minor), pattern,
questions, examples. -/
structure Card where
  name : String
  card_type : String
  number : Option Nat
  pattern : String
  questions : List String
  examples : List String
deriving DecidableEq, Repr

def MAJOR_ARCANA : List Card := [
  ⟨"The Cascade",
   "Major",
   none,
   "Small triggers creating disproportionate effects through connected systems.",
   ["What small change could trigger large consequences?",
    "Where are the critical dependencies?",
    "What chain reaction am I inside?"],
   ["Engineering: Single component failure bringing down entire system",
    "Social: Rumor spreading exponentially through network",
    "Financial: Bank run triggering systemic crisis",
    "Ecological: Keystone species removal cascading through food web"]⟩,
  ⟨"The Network",
   "Major",
   none,
   "Distributed intelligence emerging from local connections without central control.",
   ["How can influence spread without direct authority?",
    "What invisible networks am I part of?",
    "Where does coordination emerge from simple rules?"],
   ["Nature: Fungal networks sharing resources between trees",
    "Social: Movements organizing without formal leadership",
    "Technical: Mesh networks routing around damage",
    "Economic: Market coordination without central planning"]⟩,
  ⟨"The Threshold",
   "Major",
   none,
   "Tipping points where systems irreversibly shift to new states.",
   ["What point of no return am I approaching?",
    "Can this change be reversed?",
    "What early warnings signal the threshold?"],
   ["Physics: Water freezing at critical temperature",
    "Ecology: Lake flipping from clear to turbid state",
    "Social: Trust collapse in relationships or institutions",
    "Business: Market share tipping toward winner-takes-all"]⟩,
  ⟨"The Emergence",
   "Major",
   none,
   "Complex order arising from simple interactions - patterns unpredictable from components.",
   ["What's trying to emerge beyond my control?",
    "Am I enabling conditions or forcing outcomes?",
    "What unexpected patterns are appearing?"],
   ["Biology: Consciousness emerging from neurons",
    "Architecture: Desire paths emerging from foot traffic",
    "Software: System behavior emerging from component interactions",
    "Markets: Prices emerging from individual trades"]⟩,
  ⟨"The Collapse",
   "Major",
   none,
   "System failure creating space for transformation - endings enabling beginnings.",
   ["What needs to end for something new to start?",
    "Am I sustaining something past its useful life?",
    "What opportunities exist in this breakdown?"],
   ["Business: Company failure freeing capital for innovation",
    "Ecology: Forest fire enabling new growth",
    "Personal: Habit collapse creating space for change",
    "Infrastructure: Old system retirement forcing modernization"]⟩,
  ⟨"The Resilience",
   "Major",
   none,
   "Systems growing stronger through stress, not just surviving it.",
   ["How can I benefit from volatility?",
    "What stressors make this system stronger?",
    "Am I optimizing for efficiency or adaptability?"],
   ["Biology: Muscles growing from exercise stress",
    "Engineering: Redundant systems surviving failures",
    "Economics: Diversified portfolios weathering shocks",
    "Social: Communities strengthened through adversity"]⟩,
  ⟨"The Attention",
   "Major",
   none,
   "Intelligence as selective focus - what gets measured gets managed.",
   ["Where is attention being directed?",
    "What's invisible because it's not measured?",
    "How do I decide what matters?"],
   ["Business: Metrics shaping organizational behavior",
    "Media: Headlines directing public focus",
    "Personal: Habits following tracked behaviors",
    "AI: Attention mechanisms in neural networks"]⟩,
  ⟨"The Feedback",
   "Major",
   none,
   "Control loops regulating or amplifying - systems responding to their own outputs.",
   ["What feedback loops am I inside?",
    "Is this loop stabilizing or amplifying?",
    "Where are delays hiding feedback?"],
   ["Climate: Ice melting reducing reflectivity increasing melting",
    "Economics: Inflation expectations driving actual inflation",
    "Audio: Microphone near speaker creating squealing loop",
    "Social: Panic causing behavior causing more panic"]⟩,
  ⟨"The Boundary",
   "Major",
   none,
   "Edges between domains where different rules apply - operating at interfaces.",
   ["What boundary am I operating on?",
    "How do rules change across this edge?",
    "What's possible at interfaces that isn't elsewhere?"],
   ["Biology: Cell membranes controlling exchange",
    "Innovation: Cross-disciplinary insights at field boundaries",
    "Geography: Coastal zones with unique ecosystems",
    "Organization: Departments with different cultures meeting"]⟩,
  ⟨"The Signal",
   "Major",
   none,
   "Meaningful information embedded in noise - distinguishing pattern from randomness.",
   ["What signal am I missing in the noise?",
    "What noise am I treating as signal?",
    "How do I amplify weak but important signals?"],
   ["Medicine: Symptoms indicating underlying disease",
    "Finance: Market movements signaling regime changes",
    "Science: Experimental data revealing new phenomena",
    "Social: Weak signals indicating cultural shifts"]⟩,
  ⟨"The Compression",
   "Major",
   none,
   "Reducing complexity to fit constraints - translation with information loss.",
   ["What am I losing by simplifying?",
    "Is this compression necessary or habitual?",
    "What's the minimum viable complexity?"],
   ["Communication: Explaining expertise to non-experts",
    "Data: Lossy compression for storage/transmission",
    "Models: Simplified representations of complex reality",
    "Teaching: Reducing concepts to learnable chunks"]⟩,
  ⟨"The Archipelago",
   "Major",
   none,
   "Parallel systems developing independently with rare cross-pollination.",
   ["What separate systems am I maintaining?",
    "Which deserves attention now?",
    "Where might connections create value?"],
   ["Biology: Isolated populations evolving differently",
    "Projects: Multiple initiatives progressing in parallel",
    "Knowledge: Separate fields occasionally intersecting",
    "Communities: Independent groups with occasional exchange"]⟩,
  ⟨"The Continuity",
   "Major",
   none,
   "Mechanisms ensuring survival through disruption - what persists when everything changes.",
   ["What must survive no matter what?",
    "How do I ensure continuity through crisis?",
    "What's essential versus merely important?"],
   ["Biology: DNA preserving information across generations",
    "Business: Succession planning and redundancy",
    "Culture: Traditions maintaining identity through change",
    "Infrastructure: Backup systems for critical functions"]⟩,
  ⟨"The Translation",
   "Major",
   none,
   "Converting between different contexts or languages - bridging incompatible systems.",
   ["What am I translating and for whom?",
    "What's inevitably lost in translation?",
    "When should I speak natively instead?"],
   ["Language: Interpreting between speakers",
    "Technical: Explaining complex systems to stakeholders",
    "Cultural: Bridging different organizational norms",
    "Format: Converting data between systems"]⟩,
  ⟨"The Vigilance",
   "Major",
   none,
   "Constant scanning for threats or changes - maintaining readiness at a cost.",
   ["What threat am I actually responding to?",
    "Is this vigilance still serving its purpose?",
    "What's the cost of constant alertness?"],
   ["Security: Continuous monitoring for intrusions",
    "Health: Immune system scanning for pathogens",
    "Markets: Traders watching for opportunities/risks",
    "Personal: Hyperawareness from past trauma"]⟩,
  ⟨"The Reframe",
   "Major",
   none,
   "Radical perspective shift - abandoning the current game for a different one.",
   ["What assumption am I locked into?",
    "What would the opposite approach look like?",
    "Am I solving the wrong problem?"],
   ["Business: Pivoting to new market instead of fighting in old",
    "Problem-solving: Changing the question instead of finding answers",
    "Conflict: Redefining win conditions",
    "Innovation: Questioning fundamental assumptions"]⟩,
  ⟨"The Synthesis",
   "Major",
   none,
   "Creating novel combinations from existing elements - the alchemical moment.",
   ["What elements could combine in new ways?",
    "Where do my domains intersect unexpectedly?",
    "What emerges from connection A + B + C?"],
   ["Innovation: Smartphone combining phone + computer + camera",
    "Cuisine: Fusion cooking merging culinary traditions",
    "Science: Interdisciplinary insights creating new fields",
    "Art: Mixed media creating novel expressions"]⟩,
  ⟨"The Stewardship",
   "Major",
   none,
   "Tending systems without controlling - creating conditions for emergence.",
   ["What am I controlling that I should be stewarding?",
    "What conditions enable natural growth?",
    "When do I intervene versus observe?"],
   ["Gardening: Providing conditions, not forcing growth",
    "Leadership: Enabling teams rather than micromanaging",
    "Ecology: Conservation through habitat protection",
    "Teaching: Creating learning environments"]⟩,
  ⟨"The Release",
   "Major",
   none,
   "Operating at full capacity without constraint - permission to expand completely.",
   ["What would I do without current constraints?",
    "What's my actual scope when uncompressed?",
    "Who am I when not adapting to limits?"],
   ["Creative: Artist working without commercial constraints",
    "Athletic: Performing at peak without holding back",
    "Intellectual: Exploring ideas at full depth",
    "Expression: Communicating without translation"]⟩,
  ⟨"The Unknown Unknown",
   "Major",
   none,
   "What you don't know you don't know - the space beyond your map.",
   ["What am I not even asking about?",
    "What would reveal this blind spot?",
    "Who might see what I'm missing?"],
   ["Science: Paradigm shifts from unexpected discoveries",
    "Business: Disruption from unconsidered competitors",
    "Personal: Assumptions never questioned",
    "Risk: Black swans by definition unexpected"]⟩,
  ⟨"The Legacy",
   "Major",
   none,
   "What persists beyond individual existence - inheritance across time.",
   ["What am I building that outlasts me?",
    "Who carries forward what I started?",
    "What's worth preserving?"],
   ["Culture: Knowledge transmission across generations",
    "Infrastructure: Buildings and systems serving future users",
    "Teaching: Ideas living in students' minds",
    "Nature: Ecosystems shaped by past species"]⟩,
  ⟨"The Presence",
   "Major",
   none,
   "Being fully here now without prediction or planning - stopping the chess game.",
   ["Where am I actually right now?",
    "What am I missing by being elsewhere mentally?",
    "Can I engage without constantly anticipating?"],
   ["Mindfulness: Awareness of current moment",
    "Flow states: Full engagement in activity",
    "Relationships: Genuine connection requiring presence",
    "Performance: Responding to what is, not what might be"]⟩
]

def create_networks_suit : List Card := [
  ⟨"Ace of Networks",
   "Networks",
   some 1,
   "Pure potential of connection - the first link.",
   ["What new connection wants to form?",
    "What relationship is just beginning?"],
   ["Infrastructure: First cable connecting two locations",
    "Social: Meeting someone who could become important",
    "Business: Initial partnership conversation",
    "Biological: Neurons forming new synapses"]⟩,
  ⟨"Two of Networks",
   "Networks",
   some 2,
   "Point-to-point connection - direct relationship.",
   ["Who needs direct communication here?",
    "What's lost through intermediaries?"],
   ["Communication: Direct conversation vs mediated",
    "Technology: Peer-to-peer connection",
    "Diplomacy: Bilateral negotiations",
    "Trade: Direct exchange between parties"]⟩,
  ⟨"Three of Networks",
   "Networks",
   some 3,
   "Triangle formation - stability through redundancy.",
   ["Where do I need backup connections?",
    "What's my alternative path?"],
   ["Engineering: Redundant systems for reliability",
    "Social: Friend groups providing stability",
    "Supply chain: Multiple suppliers for resilience",
    "Structure: Triangles in architecture for strength"]⟩,
  ⟨"Four of Networks",
   "Networks",
   some 4,
   "Hub-and-spoke - centralized structure.",
   ["Who's the central hub here?",
    "What's the single point of failure?"],
   ["Organizations: Hierarchical reporting structure",
    "Transportation: Airport hub connecting many cities",
    "Information: Centralized database or server",
    "Social: Influential person connecting many others"]⟩,
  ⟨"Five of Networks",
   "Networks",
   some 5,
   "Network fragmentation - breaking connections.",
   ["What connections are breaking?",
    "How can I repair this split?"],
   ["Social: Community dividing into factions",
    "Technical: Network partition or outage",
    "Political: Alliance breakdown",
    "Infrastructure: Road or bridge failure isolating regions"]⟩,
  ⟨"Six of Networks",
   "Networks",
   some 6,
   "Mesh topology - distributed resilience.",
   ["How does information route around damage?",
    "What's the optimal connection density?"],
   ["Internet: Packets routing around failed nodes",
    "Nature: Mycelial networks with many paths",
    "Social: Communities with multiple weak ties",
    "Power grid: Interconnected for reliability"]⟩,
  ⟨"Seven of Networks",
   "Networks",
   some 7,
   "Network congestion - too much traffic.",
   ["Where are the bottlenecks?",
    "What needs throttling or expansion?"],
   ["Traffic: Roads at capacity causing delays",
    "Computing: Bandwidth limitations slowing system",
    "Communication: Overwhelmed with messages",
    "Social: Too many commitments to maintain well"]⟩,
  ⟨"Eight of Networks",
   "Networks",
   some 8,
   "Network effects - value emerging from scale.",
   ["How does growth create value?",
    "What's the critical mass threshold?"],
   ["Platforms: Each user making service more valuable",
    "Language: Utility increasing with number of speakers",
    "Standards: Adoption creating momentum",
    "Ecosystems: Biodiversity supporting more life"]⟩,
  ⟨"Nine of Networks",
   "Networks",
   some 9,
   "Over-connection - complexity causing fragility.",
   ["Am I too connected?",
    "What connections should I reduce?"],
   ["Finance: Tight coupling enabling contagion",
    "Personal: Overcommitment creating stress",
    "Software: Excessive dependencies causing failures",
    "Ecology: Monoculture vulnerable to cascade"]⟩,
  ⟨"Ten of Networks",
   "Networks",
   some 10,
   "Network maturity - established infrastructure.",
   ["Is this network fully built?",
    "What comes after maturity?"],
   ["Infrastructure: Complete road or utility network",
    "Social: Established community with stable relationships",
    "Professional: Mature industry structure",
    "Ecological: Climax ecosystem in equilibrium"]⟩,
  ⟨"Page of Networks",
   "Networks",
   some 11,
   "Learning connectivity - exploring connections.",
   ["What network am I just discovering?",
    "Where should I explore?"],
   ["Student: Learning field's key relationships",
    "Explorer: Mapping new territory",
    "Newcomer: Understanding social structure",
    "Analyst: Discovering system architecture"]⟩,
  ⟨"Knight of Networks",
   "Networks",
   some 12,
   "Network defender - protecting infrastructure.",
   ["What infrastructure needs protection?",
    "What threats to connectivity exist?"],
   ["Cybersecurity: Defending against network attacks",
    "Maintenance: Keeping infrastructure operational",
    "Diplomacy: Preserving alliances",
    "Conservation: Protecting ecological corridors"]⟩,
  ⟨"Queen of Networks",
   "Networks",
   some 13,
   "Network wisdom - understanding connectivity deeply.",
   ["What does this network need to thrive?",
    "How do I nurture connections?"],
   ["Community builder: Fostering relationships",
    "Architect: Designing for connection",
    "Ecologist: Understanding ecosystem relationships",
    "Manager: Building organizational bridges"]⟩,
  ⟨"King of Networks",
   "Networks",
   some 14,
   "Network mastery - strategic control of infrastructure.",
   ["Who controls this network?",
    "What's the strategic value of connectivity?"],
   ["Infrastructure owner: Controlling critical systems",
    "Platform operator: Network effects as moat",
    "Diplomat: Managing alliance structure",
    "Keystone species: Ecological network centrality"]⟩
]

def create_events_suit : List Card := [
  ⟨"Ace of Events",
   "Events",
   some 1,
   "The first trigger - initiating moment.",
   ["What event starts the sequence?",
    "What's the first move?"],
   ["History: Archduke's assassination triggering WWI",
    "Science: First observation leading to discovery",
    "Business: Market shock initiating change",
    "Personal: Decision that changes everything"]⟩,
  ⟨"Two of Events",
   "Events",
   some 2,
   "Cause and effect - simple causality.",
   ["What caused this?",
    "What will this cause?"],
   ["Physics: Force causing acceleration",
    "Economics: Price change affecting demand",
    "Health: Action affecting outcome",
    "Social: Behavior eliciting response"]⟩,
  ⟨"Three of Events",
   "Events",
   some 3,
   "Event branching - multiple possible outcomes.",
   ["Which path does this take?",
    "What futures are possible?"],
   ["Decision: Choice creating different paths",
    "Quantum: Wavefunction collapse to one state",
    "Evolution: Speciation into multiple lineages",
    "Markets: Scenario planning for possibilities"]⟩,
  ⟨"Four of Events",
   "Events",
   some 4,
   "Event coordination - synchronization.",
   ["What needs to happen simultaneously?",
    "How do I achieve coordination?"],
   ["Performance: Orchestra playing in time",
    "Distributed systems: Consensus protocols",
    "Manufacturing: Assembly line synchronization",
    "Nature: Synchronized firefly flashing"]⟩,
  ⟨"Five of Events",
   "Events",
   some 5,
   "Event chaos - loss of causal clarity.",
   ["What's the actual cause?",
    "Am I confusing correlation and causation?"],
   ["Complex systems: Many interacting variables",
    "Attribution: Uncertain cause of outcome",
    "Weather: Chaotic dynamics limiting prediction",
    "Markets: Multiple factors confounding analysis"]⟩,
  ⟨"Six of Events",
   "Events",
   some 6,
   "Event stream - continuous flow.",
   ["What's the pattern in the flow?",
    "How do I process this stream?"],
   ["Data: Real-time sensor readings",
    "News: Continuous information flow",
    "River: Water constantly flowing",
    "Traffic: Vehicles in steady stream"]⟩,
  ⟨"Seven of Events",
   "Events",
   some 7,
   "Event cascade - chain reactions.",
   ["What cascade am I triggering?",
    "Where does this chain end?"],
   ["Avalanche: Snow triggering more snow",
    "Finance: Margin calls forcing more sales",
    "Ecology: Species loss affecting food web",
    "Social: Panic spreading through crowd"]⟩,
  ⟨"Eight of Events",
   "Events",
   some 8,
   "Event memory - learning from history.",
   ["What can past events teach?",
    "What patterns repeat?"],
   ["History: Learning from precedent",
    "Personal: Experience informing decisions",
    "Science: Experimental data building knowledge",
    "Markets: Historical patterns suggesting futures"]⟩,
  ⟨"Nine of Events",
   "Events",
   some 9,
   "Event overload - too much happening.",
   ["What events can I ignore?",
    "Where must I focus?"],
   ["Information: Overwhelming news flow",
    "Crisis: Multiple emergencies competing",
    "Personal: Too many demands at once",
    "Systems: Processing capacity exceeded"]⟩,
  ⟨"Ten of Events",
   "Events",
   some 10,
   "Event completion - cycle ending.",
   ["What cycle is finishing?",
    "What comes after completion?"],
   ["Project: Reaching final milestone",
    "Seasons: Year completing its cycle",
    "Life: Generation finishing its time",
    "Business: Product reaching end of life"]⟩,
  ⟨"Page of Events",
   "Events",
   some 11,
   "Event observer - watching patterns.",
   ["What events should I monitor?",
    "What patterns emerge from observation?"],
   ["Scientist: Recording experimental results",
    "Analyst: Tracking market movements",
    "Scout: Observing enemy movements",
    "Student: Noticing learning patterns"]⟩,
  ⟨"Knight of Events",
   "Events",
   some 12,
   "Event responder - quick reaction.",
   ["How fast must I respond?",
    "What's the urgency?"],
   ["Emergency: First responder to crisis",
    "Trading: Reacting to market moves",
    "Sports: Responding to opponent's action",
    "Defense: Countering incoming threat"]⟩,
  ⟨"Queen of Events",
   "Events",
   some 13,
   "Event wisdom - understanding timing.",
   ["When is the right time?",
    "What's the natural rhythm?"],
   ["Farming: Planting and harvesting with seasons",
    "Leadership: Knowing when to act or wait",
    "Medicine: Treating at optimal moment",
    "Strategy: Timing move for maximum effect"]⟩,
  ⟨"King of Events",
   "Events",
   some 14,
   "Event mastery - controlling timing.",
   ["Do I control the timing?",
    "Who sets the tempo?"],
   ["Conductor: Setting the pace of music",
    "General: Choosing moment of attack",
    "Market maker: Setting trading tempo",
    "Predator: Choosing moment to strike"]⟩
]

def create_agents_suit : List Card := [
  ⟨"Ace of Agents",
   "Agents",
   some 1,
   "Autonomous action - independent agency.",
   ["What can I do independently?",
    "Where do I have agency?"],
   ["Individual: Making independent choice",
    "Robot: Acting on own programming",
    "Cell: Self-directed biological process",
    "Entrepreneur: Starting independent venture"]⟩,
  ⟨"Two of Agents",
   "Agents",
   some 2,
   "Partnership - cooperative action.",
   ["Who's my partner?",
    "How do we coordinate?"],
   ["Business: Co-founders working together",
    "Dance: Partners moving in sync",
    "Biology: Symbiotic relationship",
    "Negotiation: Two parties reaching agreement"]⟩,
  ⟨"Three of Agents",
   "Agents",
   some 3,
   "Small team - coordinated group.",
   ["Who's on the team?",
    "How do we work together effectively?"],
   ["Work: Project team collaborating",
    "Sports: Players coordinating moves",
    "Hunt: Pack hunting cooperatively",
    "Music: Trio performing together"]⟩,
  ⟨"Four of Agents",
   "Agents",
   some 4,
   "Structured organization - hierarchy forming.",
   ["What's the structure?",
    "Who has authority over what?"],
   ["Military: Chain of command",
    "Corporation: Organizational hierarchy",
    "Government: Levels of authority",
    "Bee colony: Queen, workers, drones"]⟩,
  ⟨"Five of Agents",
   "Agents",
   some 5,
   "Agent conflict - competing interests.",
   ["What's the conflict?",
    "Can interests be aligned?"],
   ["Game theory: Prisoner's dilemma",
    "Business: Competing companies",
    "Internal: Conflicting desires",
    "Politics: Opposing factions"]⟩,
  ⟨"Six of Agents",
   "Agents",
   some 6,
   "Swarm intelligence - emergent coordination.",
   ["How does coordination emerge?",
    "What simple rules create complex behavior?"],
   ["Birds: Flocking from local rules",
    "Ants: Colony intelligence from simple agents",
    "Markets: Price discovery from individual trades",
    "Crowds: Movement patterns emerging"]⟩,
  ⟨"Seven of Agents",
   "Agents",
   some 7,
   "Agent specialization - division of labor.",
   ["What's each agent's specialized role?",
    "How does specialization create efficiency?"],
   ["Economics: Specialized professions",
    "Biology: Cell differentiation",
    "Factory: Assembly line workers",
    "Team: Distinct roles and responsibilities"]⟩,
  ⟨"Eight of Agents",
   "Agents",
   some 8,
   "Multi-agent coordination - complex systems.",
   ["How do many agents coordinate?",
    "What protocols enable cooperation?"],
   ["Air traffic: Many planes coordinating safely",
    "Internet: Protocols enabling communication",
    "Society: Norms coordinating behavior",
    "Immune system: Cells working together"]⟩,
  ⟨"Nine of Agents",
   "Agents",
   some 9,
   "Control versus autonomy - tension.",
   ["How much control is needed?",
    "When should I enable autonomy?"],
   ["Parenting: Guidance vs independence",
    "Management: Oversight vs delegation",
    "Government: Regulation vs freedom",
    "AI: Human control vs machine autonomy"]⟩,
  ⟨"Ten of Agents",
   "Agents",
   some 10,
   "Collective intelligence - unified mind.",
   ["What does the collective know?",
    "How do we think as one?"],
   ["Democracy: Collective decision-making",
    "Science: Distributed knowledge creation",
    "Culture: Shared understanding",
    "Superorganism: Colony as single entity"]⟩,
  ⟨"Page of Agents",
   "Agents",
   some 11,
   "Learning agent - growing capability.",
   ["What am I learning?",
    "How do I develop capability?"],
   ["Student: Acquiring knowledge and skills",
    "AI: Machine learning from data",
    "Apprentice: Learning craft",
    "Species: Evolving new capabilities"]⟩,
  ⟨"Knight of Agents",
   "Agents",
   some 12,
   "Action-oriented - executor.",
   ["What needs doing now?",
    "How do I execute effectively?"],
   ["Soldier: Following orders in action",
    "Athlete: Performing in competition",
    "Entrepreneur: Implementing business plan",
    "Predator: Executing hunt"]⟩,
  ⟨"Queen of Agents",
   "Agents",
   some 13,
   "Nurturing intelligence - developing others.",
   ["Who needs guidance?",
    "How do I help others grow?"],
   ["Teacher: Developing student potential",
    "Mentor: Guiding protégé",
    "Parent: Raising children",
    "Manager: Developing team members"]⟩,
  ⟨"King of Agents",
   "Agents",
   some 14,
   "Strategic intelligence - master coordinator.",
   ["What's the overall strategy?",
    "How do I orchestrate all agents?"],
   ["General: Commanding army",
    "CEO: Leading organization",
    "Conductor: Directing orchestra",
    "Brain: Coordinating body systems"]⟩
]

def create_resources_suit : List Card := [
  ⟨"Ace of Resources",
   "Resources",
   some 1,
   "New resource - fresh potential.",
   ["What new resource is available?",
    "How should I allocate it?"],
   ["Finance: New funding or income",
    "Energy: Discovering energy source",
    "Time: New availability opening",
    "Attention: Fresh capacity to focus"]⟩,
  ⟨"Two of Resources",
   "Resources",
   some 2,
   "Resource balance - equilibrium.",
   ["Am I balanced?",
    "What needs rebalancing?"],
   ["Budget: Income matching expenses",
    "Ecology: Predator-prey equilibrium",
    "Work-life: Balancing competing demands",
    "Health: Homeostasis in body"]⟩,
  ⟨"Three of Resources",
   "Resources",
   some 3,
   "Resource pooling - collaboration.",
   ["What resources can be shared?",
    "How do we pool effectively?"],
   ["Commons: Shared grazing land",
    "Crowdfunding: Pooling many small contributions",
    "Potluck: Sharing food resources",
    "Knowledge: Open source collaboration"]⟩,
  ⟨"Four of Resources",
   "Resources",
   some 4,
   "Resource accumulation - holding.",
   ["What am I storing?",
    "Is accumulation serving me?"],
   ["Savings: Building financial reserves",
    "Squirrel: Storing nuts for winter",
    "Data: Accumulating information",
    "Hoarding: Excessive accumulation"]⟩,
  ⟨"Five of Resources",
   "Resources",
   some 5,
   "Resource scarcity - not enough.",
   ["What's truly scarce?",
    "How do I optimize within constraints?"],
   ["Famine: Insufficient food",
    "Drought: Water scarcity",
    "Recession: Economic contraction",
    "Attention: Limited focus capacity"]⟩,
  ⟨"Six of Resources",
   "Resources",
   some 6,
   "Resource flow - circulation.",
   ["Where do resources flow?",
    "What blocks circulation?"],
   ["Economy: Money circulating through system",
    "Body: Blood flowing through vessels",
    "Ecosystem: Energy flowing through food web",
    "Supply chain: Goods moving to market"]⟩,
  ⟨"Seven of Resources",
   "Resources",
   some 7,
   "Resource investment - long-term thinking.",
   ["What investment pays off later?",
    "What's the long-term value?"],
   ["Education: Investing time in learning",
    "Infrastructure: Building for future benefit",
    "Tree planting: Shade for future generations",
    "Research: Long-term knowledge development"]⟩,
  ⟨"Eight of Resources",
   "Resources",
   some 8,
   "Resource transformation - alchemy.",
   ["How can I transform this resource?",
    "What's the conversion process?"],
   ["Manufacturing: Raw materials to products",
    "Cooking: Ingredients to meals",
    "Learning: Information to knowledge",
    "Energy: Converting between forms"]⟩,
  ⟨"Nine of Resources",
   "Resources",
   some 9,
   "Resource abundance - more than enough.",
   ["What abundance exists?",
    "Am I recognizing what I have?"],
   ["Harvest: Abundant crop yield",
    "Talent: Wealth of capable people",
    "Ideas: Creative abundance",
    "Nature: Ecosystem productivity"]⟩,
  ⟨"Ten of Resources",
   "Resources",
   some 10,
   "Resource legacy - inheritance.",
   ["What resources do I pass on?",
    "What's my contribution to future?"],
   ["Estate: Wealth passed to heirs",
    "Knowledge: Teaching next generation",
    "Infrastructure: Systems for future use",
    "Culture: Traditions and practices"]⟩,
  ⟨"Page of Resources",
   "Resources",
   some 11,
   "Resource learning - understanding value.",
   ["What's truly valuable?",
    "How do I recognize worth?"],
   ["Student: Learning to budget",
    "Prospector: Learning to identify ore",
    "Novice: Understanding what matters",
    "Child: Learning value of sharing"]⟩,
  ⟨"Knight of Resources",
   "Resources",
   some 12,
   "Resource quest - seeking what's needed.",
   ["What resource am I seeking?",
    "Where do I find it?"],
   ["Hunter: Seeking food",
    "Entrepreneur: Seeking funding",
    "Explorer: Searching for new resources",
    "Job seeker: Finding opportunity"]⟩,
  ⟨"Queen of Resources",
   "Resources",
   some 13,
   "Resource wisdom - knowing what's needed.",
   ["What do I truly need?",
    "What's sufficient?"],
   ["Sage: Understanding enough is enough",
    "Homesteader: Living within means",
    "Conservationist: Sustaining resources",
    "Minimalist: Valuing sufficiency"]⟩,
  ⟨"King of Resources",
   "Resources",
   some 14,
   "Resource mastery - strategic allocation.",
   ["How do I allocate optimally?",
    "What's the strategic deployment?"],
   ["Investor: Strategic portfolio allocation",
    "General: Deploying assets optimally",
    "Ecologist: Managing ecosystem resources",
    "Leader: Allocating organizational resources"]⟩
]
/-- `SystemsTarot.__init__`: full_deck = MAJOR_ARCANA + the four suits. -/
def full_deck : List Card :=
  MAJOR_ARCANA
    ++ create_networks_suit
    ++ create_events_suit
    ++ create_agents_suit
    ++ create_resources_suit

end systemsTarot

/-! ## The deck machine

Both classes hold two attributes, `full_deck` (set once in `__init__`) and
`deck` (the mutable draw order).  The algorithm is identical in both files,
so it is embedded once, generically in the card type `α`.  The call to
`random.shuffle` is modelled by a permutation oracle: each place in the code
that shuffles receives its own oracle argument `σ`, and theorems assume
`Shuffler σ` (the oracle returns a permutation of its input). -/

/-- Session state: the immutable catalog `full_deck` and the mutable draw
order `deck`. -/
structure TarotState (α : Type) where
  full_deck : List α
  deck : List α
deriving Repr

/-- `reset_and_shuffle`: `self.deck = list(self.full_deck); random.shuffle(self.deck)`,
with the permutation chosen by `random.shuffle` supplied as `σ`. -/
def reset_and_shuffle {α : Type} (σ : List α → List α) (t : TarotState α) : TarotState α :=
  { t with deck := σ t.full_deck }

/-- `draw`: the shared draw algorithm.  `σ₁` is the permutation used by the
possible reset when `n > len(self.deck)`; `σ₂` the one used by the possible
low-water reset after removal.  Returns the drawn cards and the new state. -/
def draw {α : Type} (σ₁ σ₂ : List α → List α) (t : TarotState α) (n : Int) :
    List α × TarotState α :=
  if n ≤ 0 then ([], t)
  else
    let t₁ := if (t.deck.length : Int) < n then reset_and_shuffle σ₁ t else t
    let drawn := t₁.deck.take n.toNat
    let t₂ := { t₁ with deck := t₁.deck.drop n.toNat }
    if t₂.deck.length < 10 then (drawn, reset_and_shuffle σ₂ t₂) else (drawn, t₂)

/-- `__init__` of either class: store the catalog and reset-and-shuffle. -/
def initTarot {α : Type} (catalog : List α) (σ : List α → List α) : TarotState α :=
  reset_and_shuffle σ { full_deck := catalog, deck := [] }

/-- The oracle behaves as `random.shuffle` does: it permutes its input. -/
def Shuffler {α : Type} (σ : List α → List α) : Prop :=
  ∀ l : List α, (σ l).Perm l

/-- State invariant observed between public calls: the draw order holds
pairwise-distinct cards, each from the catalog, and never fewer than 10. -/
def DeckInv {α : Type} (t : TarotState α) : Prop :=
  t.deck.Nodup ∧ (∀ c ∈ t.deck, c ∈ t.full_deck) ∧ 10 ≤ t.deck.length

/-- A sequence of `draw` calls: each entry carries the two shuffle oracles
`random.shuffle` would use on that call and the requested count. -/
def drawAll {α : Type} :
    List ((List α → List α) × (List α → List α) × Int) → TarotState α →
      List α × TarotState α
  | [], t => ([], t)
  | c :: cs, t =>
    let p := draw c.1 c.2.1 t c.2.2
    let q := drawAll cs p.2
    (p.1 ++ q.1, q.2)

/-- The calls all fall inside one shuffle epoch: no call triggers either
reset (each request is satisfiable from the current order and leaves at
least the low-water mark behind, or is a `n <= 0` no-op). -/
def EpochCalls {α : Type} :
    TarotState α → List ((List α → List α) × (List α → List α) × Int) → Prop
  | _, [] => True
  | t, c :: cs =>
    (c.2.2 ≤ 0 ∨ (c.2.2 ≤ (t.deck.length : Int) ∧ 10 ≤ t.deck.length - c.2.2.toNat)) ∧
      EpochCalls (draw c.1 c.2.1 t c.2.2).2 cs

namespace generate_prompts

/-! Embedding of `generate_prompts.py`.  The script reads the card data of
`systemsTarot.py` and writes one prompt file per card into a fixed output
directory; the file-system effect is modelled by returning the list of
(file name, file content) pairs in the order they are written.  Python
string helpers (`str.lower`, `str.strip`, `str.split(":", 1)`) are embedded
over the character data of the strings. -/

open systemsTarot (Card MAJOR_ARCANA create_networks_suit create_events_suit
  create_agents_suit create_resources_suit)

/-- Python `str.lower` (the card data is ASCII, where `Char.toLower` agrees
with Python). -/
def lowerStr (s : String) : String := String.mk (s.data.map Char.toLower)

/-- The characters Python `str.strip()` removes from ASCII text. -/
def isStripped (c : Char) : Bool :=
  c = ' ' || c = '\t' || c = '\n' || c = '\r' || c = '\x0b' || c = '\x0c'

/-- Python `str.strip()`: drop leading and trailing whitespace. -/
def stripStr (s : String) : String :=
  String.mk (((s.data.dropWhile isStripped).reverse.dropWhile isStripped).reverse)

def MAJOR_STYLE : String :=
  "mystical tarot card illustration, intricate Art Nouveau border with celestial motifs, "
    ++ "deep indigo and gold palette, cosmic starfield background, symbolic and archetypal imagery, "
    ++ "richly detailed, dramatic chiaroscuro lighting"

def SUIT_STYLES : List (String × String) :=
  [("Networks",
    "tarot card illustration, ornate geometric border, deep cerulean and cyan palette, "
      ++ "luminous node-and-thread motifs, structural and crystalline aesthetic, "
      ++ "glowing filaments on dark ground, detailed linework"),
   ("Events",
    "tarot card illustration, dynamic Art Deco border with chevron motifs, "
      ++ "amber and vermillion palette, kinetic energy, motion lines and lightning, "
      ++ "dramatic directional lighting, sense of urgency and change"),
   ("Agents",
    "tarot card illustration, organic border of intertwining figures and vines, "
      ++ "emerald and forest-green palette, populated with symbolic figures or creatures, "
      ++ "warm candlelit atmosphere, sense of intelligence and coordination"),
   ("Resources",
    "tarot card illustration, earthy border of roots and mineral veins, "
      ++ "ochre and burnished-gold palette, tactile materials and flowing substances, "
      ++ "rich textures of wood, stone, water, and soil, abundance or scarcity made visible")]

def RANK_CUES : List (Nat × String) :=
  [(1,  "a single seed, spark, or origin point — pure potential, void about to bloom"),
   (2,  "two elements in direct dialogue — a bridge, a handshake, or mirrored forms"),
   (3,  "three points forming a triangle — stability, redundancy, the first structure"),
   (4,  "a hub at centre with spokes radiating outward — centrality, hierarchy"),
   (5,  "fracture lines and diverging paths — tension, breakage, conflict"),
   (6,  "a web or lattice of equal nodes — distributed resilience, many equal paths"),
   (7,  "congestion, bottleneck, or overflow — too much pressing through too little"),
   (8,  "a growing spiral or compounding cascade — scale and network effects"),
   (9,  "over-abundance or entanglement — complexity at its limit"),
   (10, "a completed ring or full circle — maturity, the cycle closed"),
   (11, "a youthful or apprentice figure exploring the scene — curiosity, discovery"),
   (12, "an armoured or swift figure in motion — defender, executor, quick response"),
   (13, "a wise seated figure tending or guiding — nurture, deep understanding"),
   (14, "a commanding figure surveying the domain — mastery, strategic overview")]

/-- Is `c` in the class `[a-z0-9]` of the regex in `slugify`? -/
def isSlugChar (c : Char) : Bool :=
  ('a' ≤ c && c ≤ 'z') || ('0' ≤ c && c ≤ '9')

/-- `re.sub(r"[^a-z0-9]+", "_", text)`: replace each maximal run of
characters outside `[a-z0-9]` by a single underscore.  The flag records
whether the previous character was inside such a run. -/
def subRuns : Bool → List Char → List Char
  | _, [] => []
  | inRun, c :: cs =>
    if isSlugChar c then c :: subRuns false cs
    else if inRun then subRuns true cs
    else '_' :: subRuns true cs

/-- `slugify`: lower-case, collapse non-alphanumeric runs to `_`, then
Python `str.strip("_")` (drop leading and trailing underscores). -/
def slugify (text : String) : String :=
  String.mk
    ((((subRuns false (lowerStr text).data).dropWhile (· = '_')).reverse.dropWhile
        (· = '_')).reverse)

/-- Python `ex.split(":", 1)`: everything after the first colon, or `none`
when the string has no colon (when `len(parts) == 2` fails). -/
def afterFirstColon : List Char → Option (List Char)
  | [] => none
  | c :: cs => if c = ':' then some cs else afterFirstColon cs

/-- `examples_to_visuals`: keep `parts[1].strip().lower()` for each example
containing a colon, cap at 3, join with `"; "`. -/
def examples_to_visuals (examples : List String) : String :=
  let visuals := examples.filterMap fun ex =>
    (afterFirstColon ex.data).map fun cs => lowerStr (stripStr (String.mk cs))
  String.intercalate "; " (visuals.take 3)

/-- `f"{n:02d}"` for the indices used here (all below 100). -/
def format02 (n : Nat) : String :=
  if n < 10 then "0" ++ toString n else toString n

/-- `build_major_prompt` (the `index` argument is received and unused,
as in the source). -/
def build_major_prompt (card : Card) (index : Nat) : String :=
  let visual_grounding := examples_to_visuals card.examples
  let questions_flavour := card.questions.headD ""
  String.intercalate "\n"
    [MAJOR_STYLE ++ ".",
     "Card title at bottom: \"" ++ card.name ++ "\" — Major Arcana.",
     "Central image: " ++ card.pattern,
     "Visual references woven into the scene: " ++ visual_grounding ++ ".",
     "Philosophical mood: \"" ++ questions_flavour ++ "\"",
     "Portrait orientation, tarot card proportions (2:3.5), "
       ++ "no text except the card title in an elegant serif at the base."]

/-- `build_minor_prompt`.  `card.number` is read as a plain integer in the
source; every Minor card carries one, so the `Option` is projected. -/
def build_minor_prompt (card : Card) : String :=
  let suit := card.card_type
  let number := card.number.getD 0
  let style := (SUIT_STYLES.lookup suit).getD ((SUIT_STYLES.lookup "Networks").getD "")
  let rank_cue := (RANK_CUES.lookup number).getD ""
  let visual_grounding := examples_to_visuals card.examples
  String.intercalate "\n"
    [style ++ ".",
     "Card title at bottom: \"" ++ card.name ++ "\" — " ++ suit ++ ", card "
       ++ toString number ++ ".",
     "Central image: " ++ card.pattern,
     "Compositional anchor: " ++ rank_cue ++ ".",
     "Scene details drawn from: " ++ visual_grounding ++ ".",
     "Portrait orientation, tarot card proportions (2:3.5), "
       ++ "no text except the card title in an elegant serif at the base."]

/-- `generate_all`, as the list of (file name, file content) pairs written,
in writing order: the 22 Major files, then the four suits.  Each file
receives the prompt text plus a trailing newline. -/
def generate_all : List (String × String) :=
  ((MAJOR_ARCANA.enumFrom 1).map fun p =>
    ("major_" ++ format02 p.1 ++ "_" ++ slugify p.2.name ++ ".txt",
     build_major_prompt p.2 p.1 ++ "\n"))
    ++ ([("networks", create_networks_suit), ("events", create_events_suit),
         ("agents", create_agents_suit), ("resources", create_resources_suit)].flatMap
          fun s => s.2.map fun card =>
            (s.1 ++ "_" ++ format02 (card.number.getD 0) ++ "_" ++ slugify card.name
               ++ ".txt",
             build_minor_prompt card ++ "\n"))

end generate_prompts

/-! ## Helper lemmas about the machine -/

/-- The draw order current at the moment cards are removed: the old order,
or a fresh shuffle when the old order could not satisfy the request. -/
def preDeck {α : Type} (σ₁ : List α → List α) (t : TarotState α) (n : Int) : List α :=
  if (t.deck.length : Int) < n then σ₁ t.full_deck else t.deck

theorem shuffler_id {α : Type} : Shuffler (@id (List α)) :=
  fun l => List.Perm.refl l

theorem draw_nonpos {α : Type} (σ₁ σ₂ : List α → List α) (t : TarotState α)
    (n : Int) (h : n ≤ 0) : draw σ₁ σ₂ t n = ([], t) := by
  simp [draw, h]

theorem draw_pos_eq {α : Type} (σ₁ σ₂ : List α → List α) (t : TarotState α)
    (n : Int) (hn : 0 < n) :
    draw σ₁ σ₂ t n =
      ((preDeck σ₁ t n).take n.toNat,
       if ((preDeck σ₁ t n).drop n.toNat).length < 10 then
         { full_deck := t.full_deck, deck := σ₂ t.full_deck }
       else
         { full_deck := t.full_deck, deck := (preDeck σ₁ t n).drop n.toNat }) := by
  rw [draw, if_neg (by omega)]
  unfold preDeck
  by_cases h : (t.deck.length : Int) < n <;>
    simp only [h, if_true, if_false, reset_and_shuffle] <;>
    split <;> rfl

theorem preDeck_nodup {α : Type} {σ₁ : List α → List α} {t : TarotState α} {n : Int}
    (hσ₁ : Shuffler σ₁) (hnd : t.deck.Nodup) (hfd : t.full_deck.Nodup) :
    (preDeck σ₁ t n).Nodup := by
  unfold preDeck
  split
  · exact ((hσ₁ t.full_deck).nodup_iff).mpr hfd
  · exact hnd

theorem preDeck_subset {α : Type} {σ₁ : List α → List α} {t : TarotState α} {n : Int}
    (hσ₁ : Shuffler σ₁) (hsub : ∀ c ∈ t.deck, c ∈ t.full_deck) :
    ∀ c ∈ preDeck σ₁ t n, c ∈ t.full_deck := by
  unfold preDeck
  split
  · intro c hc
    exact ((hσ₁ t.full_deck).mem_iff).mp hc
  · exact hsub

theorem preDeck_length {α : Type} {σ₁ : List α → List α} {t : TarotState α} {n : Int}
    (hσ₁ : Shuffler σ₁) :
    (preDeck σ₁ t n).length =
      if (t.deck.length : Int) < n then t.full_deck.length else t.deck.length := by
  unfold preDeck
  split
  · exact (hσ₁ t.full_deck).length_eq
  · rfl

theorem draw_noReshuffle {α : Type} (σ₁ σ₂ : List α → List α) (t : TarotState α)
    (n : Int)
    (h : n ≤ 0 ∨ (n ≤ (t.deck.length : Int) ∧ 10 ≤ t.deck.length - n.toNat)) :
    draw σ₁ σ₂ t n =
      (t.deck.take n.toNat, { t with deck := t.deck.drop n.toNat }) := by
  by_cases hn : n ≤ 0
  · rw [draw_nonpos σ₁ σ₂ t n hn, Int.toNat_of_nonpos hn]
    simp
  · push_neg at hn
    have hle : n ≤ (t.deck.length : Int) ∧ 10 ≤ t.deck.length - n.toNat := by
      rcases h with h | h
      · omega
      · exact h
    rw [draw_pos_eq σ₁ σ₂ t n hn]
    have hpre : preDeck σ₁ t n = t.deck := by
      unfold preDeck
      rw [if_neg (by omega)]
    rw [hpre, if_neg (by simp only [List.length_drop]; omega)]

theorem drawAll_epoch {α : Type} :
    ∀ (calls : List ((List α → List α) × (List α → List α) × Int))
      (t : TarotState α), EpochCalls t calls →
      (drawAll calls t).1 ++ (drawAll calls t).2.deck = t.deck ∧
      (drawAll calls t).2.full_deck = t.full_deck := by
  intro calls
  induction calls with
  | nil => intro t _; simp [drawAll]
  | cons c cs ih =>
    intro t h
    obtain ⟨h1, h2⟩ := h
    have hd := draw_noReshuffle c.1 c.2.1 t c.2.2 h1
    rw [hd] at h2
    obtain ⟨ih1, ih2⟩ := ih _ h2
    simp only [drawAll, hd]
    constructor
    · rw [List.append_assoc, ih1]
      exact List.take_append_drop _ t.deck
    · exact ih2

/-! ## Catalog facts -/

theorem riskTarot_full_deck_length : riskTarot.full_deck.length = 78 := by rfl

theorem systemsTarot_full_deck_length : systemsTarot.full_deck.length = 78 := by rfl

theorem riskTarot_names_nodup :
    (riskTarot.full_deck.map (fun c => c.name)).Nodup := by decide

theorem systemsTarot_names_nodup :
    (systemsTarot.full_deck.map (fun c => c.name)).Nodup := by decide

theorem riskTarot_full_deck_nodup : riskTarot.full_deck.Nodup :=
  riskTarot_names_nodup.of_map

theorem systemsTarot_full_deck_nodup : systemsTarot.full_deck.Nodup :=
  systemsTarot_names_nodup.of_map

/-! ## The claims -/

/-- C1: for every `n` with `0 ≤ n ≤ 78`, `draw(n)` returns exactly `n` cards,
pairwise distinct members of the 78-card catalog, and the returned sequence is
the first `n` cards of the draw order current at removal time (`preDeck`:
the old order, freshly reshuffled when it could not satisfy the request),
in that order. -/
theorem C1_draw_in_range {α : Type} (σ₁ σ₂ : List α → List α) (t : TarotState α)
    (n : Int) (hσ₁ : Shuffler σ₁)
    (hnd : t.deck.Nodup) (hsub : ∀ c ∈ t.deck, c ∈ t.full_deck)
    (hfd : t.full_deck.Nodup) (hcat : t.full_deck.length = 78)
    (h0 : 0 ≤ n) (h78 : n ≤ 78) :
    (draw σ₁ σ₂ t n).1.length = n.toNat ∧
    (draw σ₁ σ₂ t n).1.Nodup ∧
    (∀ c ∈ (draw σ₁ σ₂ t n).1, c ∈ t.full_deck) ∧
    (draw σ₁ σ₂ t n).1 = (preDeck σ₁ t n).take n.toNat := by
  by_cases hn : n ≤ 0
  · have h0' : n = 0 := le_antisymm hn h0
    subst h0'
    rw [draw_nonpos σ₁ σ₂ t 0 le_rfl]
    exact ⟨rfl, List.nodup_nil, by simp, by simp⟩
  · push_neg at hn
    rw [draw_pos_eq σ₁ σ₂ t n hn]
    have hlen : n.toNat ≤ (preDeck σ₁ t n).length := by
      rw [preDeck_length hσ₁]
      split
      · omega
      · omega
    refine ⟨?_, ?_, ?_, rfl⟩
    · simp only [List.length_take]
      omega
    · exact (List.take_sublist _ _).nodup (preDeck_nodup hσ₁ hnd hfd)
    · intro c hc
      exact preDeck_subset hσ₁ hsub c (List.mem_of_mem_take hc)

/-- C1 witness: a fresh `SystemsTarot` session, `draw(5)`. -/
theorem C1_draw_in_range_witness :
    (draw id id (initTarot systemsTarot.full_deck id) 5).1.length = (5 : Int).toNat ∧
    (draw id id (initTarot systemsTarot.full_deck id) 5).1.Nodup ∧
    (∀ c ∈ (draw id id (initTarot systemsTarot.full_deck id) 5).1,
       c ∈ (initTarot systemsTarot.full_deck id).full_deck) ∧
    (draw id id (initTarot systemsTarot.full_deck id) 5).1 =
      (preDeck id (initTarot systemsTarot.full_deck id) 5).take (5 : Int).toNat :=
  C1_draw_in_range id id (initTarot systemsTarot.full_deck id) 5 shuffler_id
    systemsTarot_full_deck_nodup (fun _ hc => hc)
    systemsTarot_full_deck_nodup systemsTarot_full_deck_length
    (by decide) (by decide)

/-- C7: for every `n ≤ 0` (zero or negative), `draw(n)` returns the empty
sequence and leaves the state — in particular the draw order — unchanged;
no error path exists. -/
theorem C7_nonpos_draw_noop {α : Type} (σ₁ σ₂ : List α → List α)
    (t : TarotState α) (n : Int) (h : n ≤ 0) :
    draw σ₁ σ₂ t n = ([], t) :=
  draw_nonpos σ₁ σ₂ t n h

/-- C7 witness: `draw(0)` and `draw(-3)` on a fresh session. -/
theorem C7_nonpos_draw_noop_witness :
    draw id id (initTarot systemsTarot.full_deck id) 0 =
      ([], initTarot systemsTarot.full_deck id) ∧
    draw id id (initTarot systemsTarot.full_deck id) (-3) =
      ([], initTarot systemsTarot.full_deck id) :=
  ⟨C7_nonpos_draw_noop id id _ 0 (by decide),
   C7_nonpos_draw_noop id id _ (-3) (by decide)⟩

/-- C8: `draw` and `reset_and_shuffle` mutate only the draw-order state:
the catalog component `full_deck` is unchanged by both, and every returned
card is one of the very records held in the input state (either still in the
old order or coming from the shuffled catalog copy) — no record is rebuilt
or altered.  The embedding returns only the drawn cards and the new state,
mirroring that the source `draw` performs no I/O. -/
theorem C8_draw_frame {α : Type} (σ₁ σ₂ : List α → List α) (t : TarotState α)
    (n : Int) :
    (draw σ₁ σ₂ t n).2.full_deck = t.full_deck ∧
    (reset_and_shuffle σ₁ t).full_deck = t.full_deck ∧
    (∀ c ∈ (draw σ₁ σ₂ t n).1, c ∈ t.deck ∨ c ∈ σ₁ t.full_deck) := by
  by_cases hn : n ≤ 0
  · rw [draw_nonpos σ₁ σ₂ t n hn]
    exact ⟨rfl, rfl, by simp⟩
  · push_neg at hn
    rw [draw_pos_eq σ₁ σ₂ t n hn]
    refine ⟨?_, rfl, ?_⟩
    · split <;> rfl
    · intro c hc
      have hc' : c ∈ preDeck σ₁ t n := List.mem_of_mem_take hc
      unfold preDeck at hc'
      by_cases h : (t.deck.length : Int) < n
      · rw [if_pos h] at hc'
        exact Or.inr hc'
      · rw [if_neg h] at hc'
        exact Or.inl hc'

/-- C10: invariant kept by the constructor, `reset_and_shuffle` and `draw`
(for a 78-card duplicate-free catalog and truly permuting shuffles): at every
return the draw order holds pairwise-distinct cards of the catalog and has
length at least 10 — a caller never observes the deck below the low-water
mark between calls. -/
theorem C10_deck_invariant {α : Type} :
    (∀ (catalog : List α) (σ : List α → List α), Shuffler σ → catalog.Nodup →
       catalog.length = 78 → DeckInv (initTarot catalog σ)) ∧
    (∀ (σ : List α → List α) (t : TarotState α), Shuffler σ → t.full_deck.Nodup →
       t.full_deck.length = 78 → DeckInv (reset_and_shuffle σ t)) ∧
    (∀ (σ₁ σ₂ : List α → List α) (t : TarotState α) (n : Int),
       Shuffler σ₁ → Shuffler σ₂ → t.full_deck.Nodup → t.full_deck.length = 78 →
       DeckInv t → DeckInv (draw σ₁ σ₂ t n).2) := by
  have hreset : ∀ (σ : List α → List α) (t : TarotState α), Shuffler σ →
      t.full_deck.Nodup → t.full_deck.length = 78 →
      DeckInv (reset_and_shuffle σ t) := by
    intro σ t hσ hfd hcat
    refine ⟨(hσ t.full_deck).nodup_iff.mpr hfd, ?_, ?_⟩
    · intro c hc
      exact (hσ t.full_deck).mem_iff.mp hc
    · show 10 ≤ (σ t.full_deck).length
      rw [(hσ t.full_deck).length_eq, hcat]
      omega
  refine ⟨?_, hreset, ?_⟩
  · intro catalog σ hσ hnd hcat
    exact hreset σ { full_deck := catalog, deck := [] } hσ hnd hcat
  · intro σ₁ σ₂ t n hσ₁ hσ₂ hfd hcat hInv
    obtain ⟨hnd, hsub, hlow⟩ := hInv
    by_cases hn : n ≤ 0
    · rw [draw_nonpos σ₁ σ₂ t n hn]
      exact ⟨hnd, hsub, hlow⟩
    · push_neg at hn
      rw [draw_pos_eq σ₁ σ₂ t n hn]
      split
      · refine ⟨(hσ₂ t.full_deck).nodup_iff.mpr hfd, ?_, ?_⟩
        · intro c hc
          exact (hσ₂ t.full_deck).mem_iff.mp hc
        · show 10 ≤ (σ₂ t.full_deck).length
          rw [(hσ₂ t.full_deck).length_eq, hcat]
          omega
      · rename_i hrest
        refine ⟨(List.drop_sublist _ _).nodup (preDeck_nodup hσ₁ hnd hfd), ?_, ?_⟩
        · intro c hc
          exact preDeck_subset hσ₁ hsub c (List.mem_of_mem_drop hc)
        · show 10 ≤ ((preDeck σ₁ t n).drop n.toNat).length
          omega

/-- C10 witness: the invariant holds for a fresh `SystemsTarot` session and
is still in force after `draw(5)`. -/
theorem C10_deck_invariant_witness :
    DeckInv (initTarot systemsTarot.full_deck id) ∧
    DeckInv (draw id id (initTarot systemsTarot.full_deck id) 5).2 :=
  ⟨C10_deck_invariant.1 systemsTarot.full_deck id shuffler_id
     systemsTarot_full_deck_nodup systemsTarot_full_deck_length,
   C10_deck_invariant.2.2 id id (initTarot systemsTarot.full_deck id) 5
     shuffler_id shuffler_id systemsTarot_full_deck_nodup
     systemsTarot_full_deck_length
     (C10_deck_invariant.1 systemsTarot.full_deck id shuffler_id
        systemsTarot_full_deck_nodup systemsTarot_full_deck_length)⟩

/-- C3: within a single shuffle epoch — consecutive `draw` calls none of
which triggers a reshuffle — no card is drawn twice: the concatenation of
the results is pairwise distinct, every drawn card comes from the epoch's
draw order, and that order is consumed front to back (drawn cards followed
by the untouched remainder reassemble it), so a card could only reappear
once the order is exhausted and a reshuffle starts a new epoch. -/
theorem C3_epoch_no_repeat {α : Type}
    (calls : List ((List α → List α) × (List α → List α) × Int))
    (t : TarotState α) (hnd : t.deck.Nodup) (h : EpochCalls t calls) :
    (drawAll calls t).1.Nodup ∧
    (∀ c ∈ (drawAll calls t).1, c ∈ t.deck) ∧
    (drawAll calls t).1 ++ (drawAll calls t).2.deck = t.deck := by
  obtain ⟨heq, _⟩ := drawAll_epoch calls t h
  have hsub : (drawAll calls t).1.Sublist t.deck := by
    rw [← heq]
    exact List.sublist_append_left _ _
  exact ⟨hsub.nodup hnd, fun c hc => hsub.mem hc, heq⟩

/-- C3 witness: two `draw(3)` calls on a fresh session (remaining counts 78
→ 75 → 72 never cross the low-water mark, so both calls sit in one epoch). -/
theorem C3_epoch_no_repeat_witness :
    (drawAll [(id, id, (3 : Int)), (id, id, (3 : Int))]
        (initTarot systemsTarot.full_deck id)).1.Nodup ∧
    (∀ c ∈ (drawAll [(id, id, (3 : Int)), (id, id, (3 : Int))]
        (initTarot systemsTarot.full_deck id)).1,
       c ∈ (initTarot systemsTarot.full_deck id).deck) ∧
    (drawAll [(id, id, (3 : Int)), (id, id, (3 : Int))]
        (initTarot systemsTarot.full_deck id)).1 ++
      (drawAll [(id, id, (3 : Int)), (id, id, (3 : Int))]
        (initTarot systemsTarot.full_deck id)).2.deck =
      (initTarot systemsTarot.full_deck id).deck :=
  C3_epoch_no_repeat _ _ systemsTarot_full_deck_nodup
    ⟨Or.inr ⟨by decide, by decide⟩, Or.inr ⟨by decide, by decide⟩, trivial⟩

/-- C2 counterexample: on a fresh session, `draw(70)` leaves 8 < 10 cards
after removal, so the remainder is replaced by a full reshuffle; but the next
call `draw(69)` does NOT leave `78 - 69 = 9` cards remaining as the claim
states — its own removal also falls below the low-water mark, so the deck is
reshuffled again and 78 cards remain. -/
theorem C2_next_draw_counterexample :
    ((initTarot systemsTarot.full_deck id).deck.drop 70).length < 10 ∧
    (draw id id ((draw id id (initTarot systemsTarot.full_deck id) 70).2)
        69).2.deck.length ≠ 78 - 69 := by
  exact ⟨by decide, by decide⟩

/-- C2 (amended): after any `draw(n)` whose removal leaves fewer than 10
cards, the remaining draw order is replaced by a freshly reshuffled full
copy of the catalog (78 cards, discarding the leftovers), so the next
`draw(m)` operates against the full catalog and leaves exactly `78 - m`
cards remaining — provided `0 < m ≤ 68`; for larger `m ≤ 78` the low-water
reshuffle fires again at the end of that call and restores 78 instead. -/
theorem C2_replenish_amended {α : Type} (σ₁ σ₂ σ₃ σ₄ : List α → List α)
    (t : TarotState α) (n : Int) (hσ₂ : Shuffler σ₂)
    (hcat : t.full_deck.length = 78) (hn : 0 < n)
    (hlow : ((preDeck σ₁ t n).drop n.toNat).length < 10) :
    (draw σ₁ σ₂ t n).2.deck = σ₂ t.full_deck ∧
    (draw σ₁ σ₂ t n).2.deck.length = 78 ∧
    (∀ m : Int, 0 < m → m ≤ 68 →
      (draw σ₃ σ₄ (draw σ₁ σ₂ t n).2 m).2.deck.length = 78 - m.toNat) := by
  have hstate : (draw σ₁ σ₂ t n).2 =
      { full_deck := t.full_deck, deck := σ₂ t.full_deck } := by
    rw [draw_pos_eq σ₁ σ₂ t n hn, if_pos hlow]
  have hlen : (draw σ₁ σ₂ t n).2.deck.length = 78 := by
    rw [hstate]
    show (σ₂ t.full_deck).length = 78
    rw [(hσ₂ t.full_deck).length_eq, hcat]
  refine ⟨by rw [hstate], hlen, ?_⟩
  intro m hm hm68
  rw [draw_pos_eq σ₃ σ₄ _ m hm]
  have hpre : preDeck σ₃ (draw σ₁ σ₂ t n).2 m = (draw σ₁ σ₂ t n).2.deck := by
    unfold preDeck
    rw [if_neg (by omega)]
  rw [hpre]
  have hdroplen : (((draw σ₁ σ₂ t n).2.deck).drop m.toNat).length = 78 - m.toNat := by
    rw [List.length_drop, hlen]
  rw [if_neg (by omega)]
  show (((draw σ₁ σ₂ t n).2.deck).drop m.toNat).length = 78 - m.toNat
  exact hdroplen

/-- C2 witness: fresh session, `draw(70)` (leaves 8 before replenish), then
`draw(3)` leaves 75. -/
theorem C2_replenish_amended_witness :
    (draw id id (initTarot systemsTarot.full_deck id) 70).2.deck =
      id (initTarot systemsTarot.full_deck id).full_deck ∧
    (draw id id (initTarot systemsTarot.full_deck id) 70).2.deck.length = 78 ∧
    (draw id id ((draw id id (initTarot systemsTarot.full_deck id) 70).2)
        3).2.deck.length = 78 - (3 : Int).toNat :=
  have h := C2_replenish_amended id id id id (initTarot systemsTarot.full_deck id)
    70 shuffler_id systemsTarot_full_deck_length (by decide) (by decide)
  ⟨h.1, h.2.1, h.2.2 3 (by decide) (by decide)⟩

/-- C4 counterexample: the reset guard in `draw` is a plain conditional, not
a loop, so `draw(79)` on a fresh session terminates with a defined result —
the 78 cards of the reshuffled catalog — refuting the claimed
non-termination for `n > 78`. -/
theorem C4_nontermination_counterexample :
    (78 : Int) < 79 ∧
    (draw id id (initTarot riskTarot.full_deck id) 79).1.length = 78 := by
  exact ⟨by decide, by rfl⟩

/-- C4 (amended): for every `n > 78`, `draw(n)` runs the reset-and-reshuffle
logic at most twice — once because the order cannot satisfy the request and
once because the emptied remainder falls below the low-water mark — and
terminates, returning the whole freshly shuffled catalog and leaving a full
reshuffled deck. -/
theorem C4_single_reset_amended {α : Type} (σ₁ σ₂ : List α → List α)
    (t : TarotState α) (n : Int) (hσ₁ : Shuffler σ₁)
    (hcat : t.full_deck.length = 78) (hdeck : t.deck.length ≤ 78)
    (hn : 78 < n) :
    (draw σ₁ σ₂ t n).1 = σ₁ t.full_deck ∧
    (draw σ₁ σ₂ t n).2.deck = σ₂ t.full_deck := by
  have hn0 : 0 < n := by omega
  rw [draw_pos_eq σ₁ σ₂ t n hn0]
  have hpre : preDeck σ₁ t n = σ₁ t.full_deck := by
    unfold preDeck
    rw [if_pos (by omega)]
  have hlenσ : (σ₁ t.full_deck).length = 78 := by
    rw [(hσ₁ t.full_deck).length_eq, hcat]
  have htake : (σ₁ t.full_deck).take n.toNat = σ₁ t.full_deck :=
    List.take_of_length_le (by omega)
  have hdrop : (σ₁ t.full_deck).drop n.toNat = [] :=
    List.drop_eq_nil_of_le (by omega)
  rw [hpre, htake, hdrop]
  exact ⟨rfl, by rw [if_pos (by simp)]⟩

/-- C4 witness: `TonysTarot` session, `draw(79)`. -/
theorem C4_single_reset_amended_witness :
    (draw id id (initTarot riskTarot.full_deck id) 79).1 =
      id (initTarot riskTarot.full_deck id).full_deck ∧
    (draw id id (initTarot riskTarot.full_deck id) 79).2.deck =
      id (initTarot riskTarot.full_deck id).full_deck :=
  C4_single_reset_amended id id (initTarot riskTarot.full_deck id) 79
    shuffler_id riskTarot_full_deck_length (by decide) (by decide)

/-- C5: for every `n > 78`, `draw(n)` still returns only as many cards as
exist: exactly 78 pairwise-distinct cards — precisely the whole catalog —
not `n` cards. -/
theorem C5_oversized_returns_catalog {α : Type} (σ₁ σ₂ : List α → List α)
    (t : TarotState α) (n : Int) (hσ₁ : Shuffler σ₁)
    (hfd : t.full_deck.Nodup) (hcat : t.full_deck.length = 78)
    (hdeck : t.deck.length ≤ 78) (hn : 78 < n) :
    (draw σ₁ σ₂ t n).1.length = 78 ∧
    (draw σ₁ σ₂ t n).1.Nodup ∧
    (∀ c, c ∈ (draw σ₁ σ₂ t n).1 ↔ c ∈ t.full_deck) := by
  have hn0 : 0 < n := by omega
  have hlenσ : (σ₁ t.full_deck).length = 78 := by
    rw [(hσ₁ t.full_deck).length_eq, hcat]
  have hres : (draw σ₁ σ₂ t n).1 = σ₁ t.full_deck := by
    rw [draw_pos_eq σ₁ σ₂ t n hn0]
    show (preDeck σ₁ t n).take n.toNat = σ₁ t.full_deck
    unfold preDeck
    rw [if_pos (by omega)]
    exact List.take_of_length_le (by omega)
  rw [hres]
  refine ⟨hlenσ, (hσ₁ t.full_deck).nodup_iff.mpr hfd, ?_⟩
  intro c
  exact (hσ₁ t.full_deck).mem_iff

/-- C5 witness: `SystemsTarot` session, `draw(100)`. -/
theorem C5_oversized_returns_catalog_witness :
    (draw id id (initTarot systemsTarot.full_deck id) 100).1.length = 78 ∧
    (draw id id (initTarot systemsTarot.full_deck id) 100).1.Nodup ∧
    (∀ c, c ∈ (draw id id (initTarot systemsTarot.full_deck id) 100).1 ↔
       c ∈ (initTarot systemsTarot.full_deck id).full_deck) :=
  C5_oversized_returns_catalog id id (initTarot systemsTarot.full_deck id) 100
    shuffler_id systemsTarot_full_deck_nodup systemsTarot_full_deck_length
    (by decide) (by decide)

/-- The rank column 1..14, as it must read off a well-formed suit. -/
def ranksOneToFourteen : List (Option Nat) :=
  [some 1, some 2, some 3, some 4, some 5, some 6, some 7,
   some 8, some 9, some 10, some 11, some 12, some 13, some 14]

/-- C6: each session's catalog has exactly 78 cards — exactly 22 Major cards,
every one with absent rank, and exactly 14 cards in each of the four Minor
categories (Networks, Events, Agents, Resources), whose rank columns read
exactly 1..14 with no gaps or duplicates; no card falls outside these five
categories.  Holds for both `riskTarot.py` and `systemsTarot.py`. -/
theorem C6_catalog_shape :
    (riskTarot.full_deck.length = 78 ∧
     (riskTarot.full_deck.filter (fun c => c.card_type == "Major")).length = 22 ∧
     (∀ c ∈ riskTarot.full_deck, c.card_type = "Major" → c.number = none) ∧
     (riskTarot.full_deck.filter (fun c => c.card_type == "Networks")).map
        (fun c => c.number) = ranksOneToFourteen ∧
     (riskTarot.full_deck.filter (fun c => c.card_type == "Events")).map
        (fun c => c.number) = ranksOneToFourteen ∧
     (riskTarot.full_deck.filter (fun c => c.card_type == "Agents")).map
        (fun c => c.number) = ranksOneToFourteen ∧
     (riskTarot.full_deck.filter (fun c => c.card_type == "Resources")).map
        (fun c => c.number) = ranksOneToFourteen ∧
     (∀ c ∈ riskTarot.full_deck, c.card_type = "Major" ∨ c.card_type = "Networks" ∨
        c.card_type = "Events" ∨ c.card_type = "Agents" ∨ c.card_type = "Resources")) ∧
    (systemsTarot.full_deck.length = 78 ∧
     (systemsTarot.full_deck.filter (fun c => c.card_type == "Major")).length = 22 ∧
     (∀ c ∈ systemsTarot.full_deck, c.card_type = "Major" → c.number = none) ∧
     (systemsTarot.full_deck.filter (fun c => c.card_type == "Networks")).map
        (fun c => c.number) = ranksOneToFourteen ∧
     (systemsTarot.full_deck.filter (fun c => c.card_type == "Events")).map
        (fun c => c.number) = ranksOneToFourteen ∧
     (systemsTarot.full_deck.filter (fun c => c.card_type == "Agents")).map
        (fun c => c.number) = ranksOneToFourteen ∧
     (systemsTarot.full_deck.filter (fun c => c.card_type == "Resources")).map
        (fun c => c.number) = ranksOneToFourteen ∧
     (∀ c ∈ systemsTarot.full_deck, c.card_type = "Major" ∨ c.card_type = "Networks" ∨
        c.card_type = "Events" ∨ c.card_type = "Agents" ∨ c.card_type = "Resources")) := by
  exact ⟨⟨by rfl, by rfl, by decide, by rfl, by rfl, by rfl, by rfl, by decide⟩,
         ⟨by rfl, by rfl, by decide, by rfl, by rfl, by rfl, by rfl, by decide⟩⟩

namespace generate_prompts

/-- The spec's file-name scheme for Major cards:
`major_{index:2-digit}_{slug(name)}.txt`, index the 1-based position in the
Major list. -/
def spec_major_filename (index : Nat) (name : String) : String :=
  "major_" ++ format02 index ++ "_" ++ slugify name ++ ".txt"

/-- The spec's file-name scheme for Minor cards:
`{category-slug}_{rank:2-digit}_{slug(name)}.txt`. -/
def spec_minor_filename (category : String) (rank : Nat) (name : String) : String :=
  lowerStr category ++ "_" ++ format02 rank ++ "_" ++ slugify name ++ ".txt"

/-- The spec's example snippets: the text following the first colon of each
example string, lower-cased (the source also strips surrounding
whitespace), capped at 3; examples without a colon contribute nothing. -/
def spec_snippets (examples : List String) : List String :=
  (examples.filterMap fun ex =>
    (afterFirstColon ex.data).map fun cs => lowerStr (stripStr (String.mk cs))).take 3

/-- The Major prompt is the template combining the Major style text, the
card's pattern, and the spec's snippets (plus title and mood lines). -/
theorem build_major_prompt_template (card : systemsTarot.Card) (i : Nat) :
    build_major_prompt card i ++ "\n" =
      MAJOR_STYLE ++ "." ++ "\n"
        ++ ("Card title at bottom: \"" ++ card.name ++ "\" — Major Arcana.") ++ "\n"
        ++ ("Central image: " ++ card.pattern) ++ "\n"
        ++ ("Visual references woven into the scene: "
              ++ String.intercalate "; " (spec_snippets card.examples) ++ ".") ++ "\n"
        ++ ("Philosophical mood: \"" ++ card.questions.headD "" ++ "\"") ++ "\n"
        ++ ("Portrait orientation, tarot card proportions (2:3.5), "
              ++ "no text except the card title in an elegant serif at the base.") ++ "\n" := rfl

/-- The Minor prompt is the template combining the category style text, the
card's pattern, the rank cue, and the spec's snippets. -/
theorem build_minor_prompt_template (c : systemsTarot.Card) :
    build_minor_prompt c ++ "\n" =
      (SUIT_STYLES.lookup c.card_type).getD ((SUIT_STYLES.lookup "Networks").getD "")
        ++ "." ++ "\n"
        ++ ("Card title at bottom: \"" ++ c.name ++ "\" — " ++ c.card_type ++ ", card "
              ++ toString (c.number.getD 0) ++ ".") ++ "\n"
        ++ ("Central image: " ++ c.pattern) ++ "\n"
        ++ ("Compositional anchor: " ++ (RANK_CUES.lookup (c.number.getD 0)).getD "" ++ ".") ++ "\n"
        ++ ("Scene details drawn from: "
              ++ String.intercalate "; " (spec_snippets c.examples) ++ ".") ++ "\n"
        ++ ("Portrait orientation, tarot card proportions (2:3.5), "
              ++ "no text except the card title in an elegant serif at the base.") ++ "\n" := rfl

end generate_prompts

/-- C9: the prompt generator writes exactly one file per catalog card (the
catalog being the Majors followed by the four Minor suits), named
`major_{index:02}_{slug(name)}.txt` for a Major card (index = 1-based
position in the Major list) and `{category-slug}_{rank:02}_{slug(name)}.txt`
for a Minor card, whose content is the template combining the
category-level style text, the card's pattern, and up to 3 example
snippets — each the text following the first colon of an example string,
whitespace-trimmed and lower-cased — plus fixed title/mood/format lines and
a trailing newline. -/
theorem C9_prompt_files :
    systemsTarot.full_deck =
      systemsTarot.MAJOR_ARCANA
        ++ (systemsTarot.create_networks_suit ++ systemsTarot.create_events_suit
              ++ systemsTarot.create_agents_suit ++ systemsTarot.create_resources_suit) ∧
    generate_prompts.generate_all =
      (systemsTarot.MAJOR_ARCANA.enumFrom 1).map (fun p =>
        (generate_prompts.spec_major_filename p.1 p.2.name,
         generate_prompts.MAJOR_STYLE ++ "." ++ "\n"
           ++ ("Card title at bottom: \"" ++ p.2.name ++ "\" — Major Arcana.") ++ "\n"
           ++ ("Central image: " ++ p.2.pattern) ++ "\n"
           ++ ("Visual references woven into the scene: "
                 ++ String.intercalate "; " (generate_prompts.spec_snippets p.2.examples)
                 ++ ".") ++ "\n"
           ++ ("Philosophical mood: \"" ++ p.2.questions.headD "" ++ "\"") ++ "\n"
           ++ ("Portrait orientation, tarot card proportions (2:3.5), "
                 ++ "no text except the card title in an elegant serif at the base.") ++ "\n"))
      ++ (systemsTarot.create_networks_suit ++ systemsTarot.create_events_suit
            ++ systemsTarot.create_agents_suit ++ systemsTarot.create_resources_suit).map
          (fun c =>
            (generate_prompts.spec_minor_filename c.card_type (c.number.getD 0) c.name,
             (generate_prompts.SUIT_STYLES.lookup c.card_type).getD
                 ((generate_prompts.SUIT_STYLES.lookup "Networks").getD "")
               ++ "." ++ "\n"
               ++ ("Card title at bottom: \"" ++ c.name ++ "\" — " ++ c.card_type ++ ", card "
                     ++ toString (c.number.getD 0) ++ ".") ++ "\n"
               ++ ("Central image: " ++ c.pattern) ++ "\n"
               ++ ("Compositional anchor: "
                     ++ (generate_prompts.RANK_CUES.lookup (c.number.getD 0)).getD "" ++ ".") ++ "\n"
               ++ ("Scene details drawn from: "
                     ++ String.intercalate "; " (generate_prompts.spec_snippets c.examples)
                     ++ ".") ++ "\n"
               ++ ("Portrait orientation, tarot card proportions (2:3.5), "
                     ++ "no text except the card title in an elegant serif at the base.") ++ "\n")) := by
  exact ⟨rfl, rfl⟩
